import Mathlib

/-!
Formal model of the warehouse drone flight controller (`flight.py`), together
with the persistence-facing behaviour it drives (`database.py` is modelled as
an effect log plus a lookup oracle).

The control loop of `ArucoFlight.fly` is embedded as a step function on an
explicit state record; camera frames are abstracted to the geometric data the
loop actually consumes (detected marker candidates with their quad edge
lengths, pixel centroid and solve-PnP distance, plus the decoded QR text).
All numeric settings are the exact rationals of `speed_settings` in
`ArucoFlight.__init__`.
-/

/-! ### Tuning constants (`speed_settings` and instance attributes, flight.py lines 58-149) -/

def maxSpeed : ℚ := 9/50            -- 'max_speed': 0.18
def minSpeed : ℚ := 1/10            -- 'min_speed': 0.1
def targetDistance : ℚ := 27/20     -- 'target_distance': 1.35
def distanceThreshold : ℚ := 1/20   -- 'distance_threshold': 0.05
def yawSpeed : ℚ := 1/10            -- 'yaw_speed': 0.1
def controlDelay : ℚ := 4/5         -- 'control_delay': 0.8
def verticalSpeed : ℚ := 9/100      -- 'vertical_speed': 0.09
def centeringSpeed : ℚ := 3/25      -- 'centering_speed': 0.12
def centerThreshold : ℚ := 70       -- 'center_threshold': 70
def preciseCenterThreshold : ℚ := 70 -- 'precise_center_threshold': 70
def retreatSpeed : ℚ := 1/5         -- 'retreat_speed': 0.2
def retreatTime : ℚ := 3            -- 'retreat_time': 3
def minHeight : ℚ := 2/5            -- 'min_height': 0.4
def arucoConfidenceThreshold : ℚ := 13/20 -- 'aruco_confidence_threshold': 0.65
def maxLostFrames : Nat := 15       -- self.max_lost_frames
def maxSearchHeight : ℚ := 2        -- self.max_search_height
def yawSearchMaxAngle : ℚ := 45     -- yaw_search 'max_angle'
def yawSearchStepRate : ℚ := 15     -- yaw_search 'step_rate'

/-- `np.sign` on rationals (`np.sign(0) = 0`). -/
def qsign (x : ℚ) : ℚ := if 0 < x then 1 else if x < 0 then -1 else 0

/-- Absolute value on ℚ, written so that it evaluates by `decide`. -/
def qabs (x : ℚ) : ℚ := if x < 0 then -x else x

/-- Maximum on ℚ, written so that it evaluates by `decide`. -/
def qmax (a b : ℚ) : ℚ := if a ≤ b then b else a

/-- Minimum on ℚ, written so that it evaluates by `decide`. -/
def qmin (a b : ℚ) : ℚ := if b ≤ a then b else a

/-- `np.clip(v, lo, hi)`. -/
def clip (v lo hi : ℚ) : ℚ := qmax lo (qmin v hi)

/-! ### Python string primitives

The QR payload parser of `process_qr_data` uses `str.lower`, `str.strip`,
`str.split` and `str.replace`; they are reimplemented here on character lists
so that they evaluate by `decide`.  `pyLowerChar` covers the ASCII and basic
Cyrillic letters, the only ranges appearing in the payloads and patterns the
code compares. -/

def pyLowerChar (c : Char) : Char :=
  if 'A' ≤ c ∧ c ≤ 'Z' then Char.ofNat (c.toNat + 32)
  else if 0x410 ≤ c.toNat ∧ c.toNat ≤ 0x42F then Char.ofNat (c.toNat + 32)
  else if c.toNat = 0x401 then Char.ofNat 0x451
  else c

/-- Python `str.lower()`. -/
def pyLower (s : String) : String := String.mk (s.data.map pyLowerChar)

/-- Does `pat` occur as a contiguous sublist of the second argument? -/
def listInfix (pat : List Char) : List Char → Bool
  | [] => pat.isPrefixOf []
  | c :: rest => pat.isPrefixOf (c :: rest) || listInfix pat rest

/-- Python `needle in hay` (substring containment). -/
def strContains (needle hay : String) : Bool := listInfix needle.data hay.data

/-- Python whitespace for `str.strip()`. -/
def isSpaceChar (c : Char) : Bool := c = ' ' ∨ c = '\t' ∨ c = '\n' ∨ c = '\r'

/-- Python `str.strip()`. -/
def pyStrip (s : String) : String :=
  String.mk (((s.data.dropWhile isSpaceChar).reverse.dropWhile isSpaceChar).reverse)

/-- Python `str.split(sep)` for a one-character separator. -/
def splitOnChar (sep : Char) : List Char → List (List Char)
  | [] => [[]]
  | c :: rest =>
    match splitOnChar sep rest with
    | [] => if c = sep then [[], []] else [[c]]
    | x :: xs => if c = sep then [] :: x :: xs else (c :: x) :: xs

/-- Python `s.split(sep)` for a one-character separator, on strings. -/
def pySplit (sep : Char) (s : String) : List String :=
  (splitOnChar sep s.data).map String.mk

/-- One rewriting pass driven by fuel; replaces non-overlapping occurrences
left to right, as Python `str.replace` does. -/
def replaceAux (pat rep : List Char) : Nat → List Char → List Char
  | 0, rest => rest
  | _ + 1, [] => []
  | fuel + 1, c :: rest =>
    if pat.isPrefixOf (c :: rest) then
      rep ++ replaceAux pat rep fuel (List.drop pat.length (c :: rest))
    else
      c :: replaceAux pat rep fuel rest

/-- Python `s.replace(pat, rep)` (the code only uses non-empty patterns). -/
def pyReplace (s pat rep : String) : String :=
  if pat.data = [] then s
  else String.mk (replaceAux pat.data rep.data s.data.length s.data)

/-! ### Database collaborators (database.py), seen from the flight controller

`find_item` is an oracle `String → Option DbItem`; writes are recorded as an
effect list. `add_scan_history(operation, item_id, result, session_uuid)` only
matters to the claims through its `result` string, which is kept verbatim. -/

/-- A row of the `items` table as returned by `find_item` / `add_item`. -/
structure DbItem where
  qrCode : String
  name : String
  shelf : String
  position : String
deriving DecidableEq

/-- A persistence call issued by the control loop. -/
inductive DbEffect
  | addItem (qrCode name shelf position : String)
  | scanHist (result : String)
deriving DecidableEq

/-- Is this effect an `add_item` (persistence of a new item)? -/
def DbEffect.isAddItem : DbEffect → Bool
  | .addItem _ _ _ _ => true
  | .scanHist _ => false

/-- `ARUCO_LOCATIONS` (flight.py lines 21-28): marker id → (shelf, position). -/
def arucoLocations : Nat → Option (String × String)
  | 0 => some ("1", "2")
  | 1 => some ("1", "1")
  | 2 => some ("1", "2")
  | 3 => some ("1", "1")
  | 4 => some ("2", "3")
  | _ => none

/-! ### The QR payload parser inside `process_qr_data` (flight.py lines 363-374)

```
lines = qr_data.split(',')
for line in lines:
    line = line.strip()
    if 'id' in line.lower():
        data['qr_code'] = line.lower().replace('id:', '').strip()
    elif 'предмет' in line.lower():
        data['name'] = line.split(':')[1].strip()
```
`line.split(':')[1]` raises `IndexError` when the line has no colon; that
exception escapes to the blanket handler of `process_qr_data` (returning
`False` with no history record), modelled by the `none` result. -/

structure ParsedFields where
  qrCode : Option String
  name : Option String
deriving DecidableEq

/-- Field extraction over the comma-separated lines; `none` models the
`IndexError` raised by `line.split(':')[1]` on a colon-free item line. -/
def parseQrFields (qrData : String) : Option ParsedFields :=
  (pySplit ',' qrData).foldl
    (fun acc line =>
      match acc with
      | none => none
      | some flds =>
        let l := pyStrip line
        let low := pyLower l
        if strContains "id" low then
          some { flds with qrCode := some (pyStrip (pyReplace low "id:" "")) }
        else if strContains "предмет" low then
          match (pySplit ':' l).get? 1 with
          | some part => some { flds with name := some (pyStrip part) }
          | none => none
        else some flds)
    (some { qrCode := none, name := none })

/-! ### Control-loop state

Mirrors the instance attributes of `ArucoFlight` together with the local
variables of `fly` (lines 549-561).  In the source the locals
`retreat_mode`, `target_reached`, `frames_without_marker`, `retry_count`,
`current_aruco_id`, `current_height` shadow same-named attributes; the local
copies are the ones the loop reads and they are the ones modelled.
`current_aruco_id` (local) and `self.current_aruco_id` are only ever written
together (line 659), so one field represents both.  `retreat_start_time` is
`None` until the first retreat and only read while `retreatMode` is set; it is
modelled as a rational that is meaningful only in that case. -/
structure FlyState where
  lockedMarkerId : Option Nat    -- self.locked_marker_id
  markerLostFrames : Nat         -- self.marker_lost_frames
  framesWithoutMarker : Nat      -- local frames_without_marker
  scannedMarkers : List Nat      -- self.scanned_markers (a set; membership only)
  scannedQrCodes : List String   -- self.scanned_qr_codes
  scanResultsQr : List String    -- self.scan_results['scanned_qr']
  scanResultsMarkers : List Nat  -- self.scan_results['scanned_markers']
  failedQr : List String         -- self.scan_results['failed_qr']
  successfulScans : Nat          -- self.scan_results['successful_scans']
  retryCount : Nat               -- local retry_count
  retreatMode : Bool             -- local retreat_mode
  retreatStartTime : ℚ           -- local retreat_start_time
  targetReached : Bool           -- local target_reached
  lastControlTime : ℚ            -- local last_control_time
  yawSearchActive : Bool         -- self.yaw_search['active']
  yawSearchAngle : ℚ             -- self.yaw_search['current_angle']
  yawSearchDirPos : Bool         -- self.yaw_search['direction'] (true ↔ 1, false ↔ -1)
  currentArucoId : Option Nat    -- self.current_aruco_id / local current_aruco_id
  searchPhaseUp : Bool           -- self.current_search_phase = 'up'
  currentHeight : ℚ              -- local current_height
  initialHeight : Option ℚ       -- self.initial_height (never assigned: stays None)
deriving DecidableEq

/-- Python set `.add`: insert when absent. -/
def addSet {α : Type} [DecidableEq α] (x : α) (l : List α) : List α :=
  if x ∈ l then l else x :: l

/-- `self.yaw_search['direction']` as a rational (±1). -/
def yawDirQ (pos : Bool) : ℚ := if pos then 1 else -1

/-- A `set_manual_speed_body_fixed(vx, vy, vz, yaw_rate)` call. -/
structure VelCmd where
  vx : ℚ
  vy : ℚ
  vz : ℚ
  yawRate : ℚ
deriving DecidableEq

/-- The fixed backward retreat command
`set_manual_speed_body_fixed(vx=0, vy=-retreat_speed, vz=0, yaw_rate=0)`. -/
def retreatCmd : VelCmd := { vx := 0, vy := -retreatSpeed, vz := 0, yawRate := 0 }

/-- The all-zero hold command. -/
def zeroCmd : VelCmd := { vx := 0, vy := 0, vz := 0, yawRate := 0 }

/-- Everything one loop iteration emits besides its state update: velocity
commands in order, the marker selected by the Following branch (if any), and
the persistence calls made. -/
structure StepOut where
  cmds : List VelCmd
  sel : Option Nat
  effs : List DbEffect
deriving DecidableEq

/-- One detected ArUco candidate, abstracted to the geometry the loop reads:
its id, the four Euclidean edge lengths of the detected image quadrilateral
(lines 580-587 compute them from the corners), the pixel centroid of the quad
(lines 662-663), and the translation norm from `cv2.solvePnP` — `none` when
the solve fails or raises (lines 633-648, 677-741). -/
structure Cand where
  id : Nat
  side1 : ℚ
  side2 : ℚ
  side3 : ℚ
  side4 : ℚ
  centerX : ℚ
  centerY : ℚ
  dist : Option ℚ
deriving DecidableEq

/-- `marker_confidence = min(side_lengths) / max(side_lengths)` (line 589). -/
def confidence (c : Cand) : ℚ :=
  qmin (qmin c.side1 c.side2) (qmin c.side3 c.side4) /
    qmax (qmax c.side1 c.side2) (qmax c.side3 c.side4)

/-- The `valid_markers` filter (lines 576-596): keep candidates whose
confidence reaches `aruco_confidence_threshold` and whose id is not already in
`scanned_markers`. -/
def validFilter (scanned : List Nat) (cands : List Cand) : List Cand :=
  cands.filter (fun c =>
    decide (arucoConfidenceThreshold ≤ confidence c) && ! scanned.contains c.id)

/-- The nearest-marker scan (lines 604-648): starting from index 0 with
`min_distance = inf`, keep the first strict minimiser of the solve-PnP
distance among candidates whose solve succeeded.  `best` is the current
`valid_markers[nearest_marker_idx]`, `bestDist` the current `min_distance`
(`none` = infinity). -/
def nearestCandAux (best : Cand) (bestDist : Option ℚ) : List Cand → Cand
  | [] => best
  | c :: rest =>
    match c.dist, bestDist with
    | some d, some bd =>
      if d < bd then nearestCandAux c (some d) rest else nearestCandAux best bestDist rest
    | some d, none => nearestCandAux c (some d) rest
    | none, _ => nearestCandAux best bestDist rest

/-- The candidate the code locks when no locked marker is visible: scan the
whole (non-empty) valid list from `nearest_marker_idx = 0`. -/
def nearestCand (v0 : Cand) (vrest : List Cand) : Cand :=
  nearestCandAux v0 none (v0 :: vrest)

/-! ### `calculate_control_speed` (flight.py lines 264-306) -/

def calcControlSpeed (distance xCenter yCenter frameHeight frameWidth : ℚ) :
    ℚ × ℚ × ℚ × ℚ :=
  let xCenterError := xCenter - frameWidth/2
  let yCenterError := yCenter - frameHeight/2
  let distanceError := distance - targetDistance
  let isCenteredX := qabs xCenterError < centerThreshold
  let isAtDistance := qabs distanceError < distanceThreshold
  let vxYaw :=
    if qabs xCenterError > frameWidth/4 then
      (centeringSpeed * qsign xCenterError, yawSpeed * qsign xCenterError)
    else
      let xErrorRatio := qabs xCenterError / (frameWidth/4)
      let yawRate0 := yawSpeed * xErrorRatio * qsign xCenterError
      let vx0 := qmax (centeringSpeed * (1/2)) (centeringSpeed * xErrorRatio) *
        qsign xCenterError
      (vx0, if qabs vx0 > centeringSpeed * (1/2) then yawRate0 * (1/2) else yawRate0)
  let vz := if qabs yCenterError > centerThreshold then -verticalSpeed * qsign yCenterError
    else 0
  let vy :=
    if isCenteredX ∧ ¬ isAtDistance then
      let distanceRatio := qabs distanceError / targetDistance
      let v1 := maxSpeed * distanceRatio * qsign distanceError
      let v2 := if qabs v1 < minSpeed then minSpeed * qsign distanceError else v1
      if qabs distanceError < 1/5 then v2 * (2/5) else v2
    else 0
  (vxYaw.1, vy, vz, vxYaw.2)

/-! ### The Following branch of `fly` (lines 574-741) -/

/-- The control section run once a marker is selected (lines 654-741):
remember the aruco id, reset `frames_without_marker`, then — when the pose
solve succeeds — either declare the target reached (zero command), issue the
clipped precise-centering command, or issue the `calculate_control_speed`
command (with the near-target `v_y` damping of lines 730-731), each rate
limited by `control_delay`. -/
def afterSelect (s : FlyState) (c : Cand) (fw fh now : ℚ) : FlyState × StepOut :=
  let s1 := { s with currentArucoId := some c.id, framesWithoutMarker := 0 }
  match c.dist with
  | none => (s1, { cmds := [], sel := some c.id, effs := [] })
  | some distance =>
    if qabs (distance - targetDistance) ≤ distanceThreshold then
      let xCenterError := qabs (c.centerX - fw/2)
      let yCenterError := qabs (c.centerY - fh/2)
      if xCenterError < preciseCenterThreshold ∧ yCenterError < preciseCenterThreshold then
        ({ s1 with targetReached := true }, { cmds := [zeroCmd], sel := some c.id, effs := [] })
      else if controlDelay ≤ now - s1.lastControlTime then
        let vx := clip (centeringSpeed * (c.centerX - fw/2) / (fw/2))
          (-centeringSpeed) centeringSpeed
        let vz := clip (-verticalSpeed * (c.centerY - fh/2) / (fh/2))
          (-verticalSpeed) verticalSpeed
        let yawRate := clip (yawSpeed * (c.centerX - fw/2) / (fw/2)) (-yawSpeed) yawSpeed
        ({ s1 with lastControlTime := now },
         { cmds := [{ vx := vx, vy := 0, vz := vz, yawRate := yawRate }],
           sel := some c.id, effs := [] })
      else (s1, { cmds := [], sel := some c.id, effs := [] })
    else if controlDelay ≤ now - s1.lastControlTime then
      let speeds := calcControlSpeed distance c.centerX c.centerY fh fw
      let vy := if qabs speeds.2.2.1 > 0 ∧ distance < targetDistance * (6/5) then
        speeds.2.1 * (1/2) else speeds.2.1
      ({ s1 with lastControlTime := now },
       { cmds := [{ vx := speeds.1, vy := vy, vz := speeds.2.2.1, yawRate := speeds.2.2.2 }],
         sel := some c.id, effs := [] })
    else (s1, { cmds := [], sel := some c.id, effs := [] })

/-- The marker-visible Following branch (lines 574-741): filter to valid
candidates; keep following a visible locked marker (first index match, lost
counter reset); when the locked marker is invisible, count a lost frame and
either skip the frame (`continue`, no command) or — at `max_lost_frames` —
unlock and immediately lock the nearest candidate; with no lock, lock the
nearest candidate.  Note the lost-frame counter is not reset when a new lock
is acquired. -/
def followBranch (s : FlyState) (cands : List Cand) (fw fh now : ℚ) : FlyState × StepOut :=
  match validFilter s.scannedMarkers cands with
  | [] =>
    ({ s with framesWithoutMarker := s.framesWithoutMarker + 1 },
     { cmds := [], sel := none, effs := [] })
  | v0 :: vrest =>
    match s.lockedMarkerId with
    | some m =>
      match (v0 :: vrest).find? (fun c => c.id == m) with
      | some c => afterSelect { s with markerLostFrames := 0 } c fw fh now
      | none =>
        if maxLostFrames ≤ s.markerLostFrames + 1 then
          let c := nearestCand v0 vrest
          afterSelect
            { s with markerLostFrames := s.markerLostFrames + 1,
                     lockedMarkerId := some c.id } c fw fh now
        else
          ({ s with markerLostFrames := s.markerLostFrames + 1,
                    framesWithoutMarker := s.framesWithoutMarker + 1 },
           { cmds := [], sel := none, effs := [] })
    | none =>
      let c := nearestCand v0 vrest
      afterSelect { s with lockedMarkerId := some c.id } c fw fh now

/-! ### The no-marker / retreat branch of `fly` (lines 742-810) -/

/-- The yaw-search sub-step (lines 774-799), run on the already incremented
absence counter: while the search is active and the marker has been absent
for more than 5 frames, every `control_delay` command a yaw rotation and walk
the commanded angle, flipping direction at the bound; inside the 5-frame
window an active search is deactivated instead. -/
def yawSearchStep (s : FlyState) (now : ℚ) : FlyState × List VelCmd :=
  if s.framesWithoutMarker > 5 ∧ s.yawSearchActive then
    if controlDelay ≤ now - s.lastControlTime then
      let yawRate := yawDirQ s.yawSearchDirPos * yawSpeed
      let newAngle := s.yawSearchAngle +
        yawDirQ s.yawSearchDirPos * yawSearchStepRate * controlDelay
      let dirPos := if qabs yawSearchMaxAngle ≤ qabs newAngle then ! s.yawSearchDirPos
        else s.yawSearchDirPos
      ({ s with yawSearchAngle := newAngle, yawSearchDirPos := dirPos,
                lastControlTime := now },
       [{ vx := 0, vy := 0, vz := 0, yawRate := yawRate }])
    else (s, [])
  else if s.framesWithoutMarker ≤ 5 ∧ s.yawSearchActive then
    ({ s with yawSearchActive := false }, [])
  else (s, [])

/-- Taken when the detector returned no ids or `retreat_mode` is set
(lines 742-810).  While retreating: keep commanding the fixed backward
velocity until `retreat_time` has elapsed, then stop, clear
`frames_without_marker`, reset and re-arm the yaw search, and return to
Following (the marker lock and lost-frame counter are untouched).  Otherwise:
count the frame, run the yaw-search sub-step, and enter retreat once the
absence counter exceeds 10. -/
def noMarkerBranch (s : FlyState) (now : ℚ) : FlyState × StepOut :=
  if s.retreatMode then
    if now - s.retreatStartTime < retreatTime then
      (s, { cmds := [retreatCmd], sel := none, effs := [] })
    else
      ({ s with retreatMode := false, targetReached := false, framesWithoutMarker := 0,
                yawSearchActive := true, yawSearchAngle := 0, yawSearchDirPos := true,
                lastControlTime := now },
       { cmds := [zeroCmd], sel := none, effs := [] })
  else
    let s1 := { s with framesWithoutMarker := s.framesWithoutMarker + 1 }
    let ys := yawSearchStep s1 now
    let s2 := ys.1
    if s1.framesWithoutMarker > 10 ∧ s2.retreatMode = false then
      ({ s2 with retreatMode := true, retreatStartTime := now, targetReached := false,
                 yawSearchActive := false },
       { cmds := ys.2 ++ [retreatCmd], sel := none, effs := [] })
    else (s2, { cmds := ys.2, sel := none, effs := [] })

/-! ### `process_qr_data` (flight.py lines 344-446)

Modelled as a pure function of the state, the decoded text, and a `find_item`
oracle; its value is the Python return value, the updated state, and the
persistence calls made.  The `except` arms that merely log a database failure
and return `False` are not modelled: the oracle is total and `add_item` /
`add_scan_history` are assumed not to raise, matching every claim's scope. -/
def processQrData (s : FlyState) (qrData : String) (db : String → Option DbItem) :
    Bool × FlyState × List DbEffect :=
  if qrData ∈ s.scannedQrCodes then
    (true, s, [])
  else
    match s.currentArucoId.bind arucoLocations with
    | none => (false, s, [DbEffect.scanHist ("invalid_location: " ++ qrData)])
    | some loc =>
      match parseQrFields qrData with
      | none => (false, s, [])
      | some flds =>
        match flds.qrCode, flds.name with
        | some code, some nm =>
          match db code with
          | some _ =>
            (true,
             { s with scannedQrCodes := addSet qrData s.scannedQrCodes,
                      scanResultsQr := addSet qrData s.scanResultsQr,
                      successfulScans := s.successfulScans + 1 },
             [])
          | none =>
            (true,
             { s with scannedQrCodes := addSet qrData s.scannedQrCodes,
                      scanResultsQr := addSet qrData s.scanResultsQr,
                      successfulScans := s.successfulScans + 1 },
             [DbEffect.addItem code nm ("Стеллаж " ++ loc.1) ("Полка " ++ loc.2),
              DbEffect.scanHist "success"])
        | _, _ =>
          (false, s, [DbEffect.scanHist ("invalid_format: " ++ qrData)])

/-! ### The QR-scanning branch of `fly` (lines 812-874) -/

/-- Taken while `target_reached` is set.  With a decoded text: run
`process_qr_data`; on success count the scan, remember the marker as scanned,
and start the retreat; on failure record the failed text, bump the retry
counter and start the retreat once it reaches 5.  With no text: every
`control_delay`, run the vertical search sweep — the `'down'` phase compares
`current_height` with `self.initial_height`, which is still `None`, raising an
uncaught `TypeError` that aborts the frame loop; that path emits no command
and is modelled as an identity step. -/
def qrBranch (s : FlyState) (qr : Option String) (now : ℚ) (db : String → Option DbItem) :
    FlyState × StepOut :=
  match qr with
  | some qrData =>
    let pr := processQrData s qrData db
    let s1 := pr.2.1
    if pr.1 then
      let s2 := { s1 with successfulScans := s1.successfulScans + 1,
                          scanResultsQr := addSet qrData s1.scanResultsQr }
      let s3 :=
        match s2.currentArucoId with
        | some mid =>
          { s2 with scannedMarkers := addSet mid s2.scannedMarkers,
                    scanResultsMarkers := addSet mid s2.scanResultsMarkers }
        | none => s2
      if s3.retreatMode = false then
        ({ s3 with retreatMode := true, retreatStartTime := now, targetReached := false },
         { cmds := [retreatCmd], sel := none, effs := pr.2.2 })
      else (s3, { cmds := [], sel := none, effs := pr.2.2 })
    else
      let s2 := { s1 with failedQr := addSet qrData s1.failedQr,
                          retryCount := s1.retryCount + 1 }
      if 5 ≤ s2.retryCount ∧ s2.retreatMode = false then
        ({ s2 with retreatMode := true, retreatStartTime := now, targetReached := false },
         { cmds := [retreatCmd], sel := none, effs := pr.2.2 })
      else (s2, { cmds := [], sel := none, effs := pr.2.2 })
  | none =>
    if controlDelay ≤ now - s.lastControlTime then
      if s.searchPhaseUp then
        if maxSearchHeight ≤ s.currentHeight then
          ({ s with searchPhaseUp := false,
                    currentHeight := s.currentHeight + (-verticalSpeed * (1/2)) * controlDelay,
                    lastControlTime := now },
           { cmds := [{ vx := 0, vy := 0, vz := -verticalSpeed * (1/2), yawRate := 0 }],
             sel := none, effs := [] })
        else
          ({ s with currentHeight := s.currentHeight + verticalSpeed * controlDelay,
                    lastControlTime := now },
           { cmds := [{ vx := 0, vy := 0, vz := verticalSpeed, yawRate := 0 }],
             sel := none, effs := [] })
      else
        match s.initialHeight with
        | none => (s, { cmds := [], sel := none, effs := [] })
        | some h0 =>
          if s.currentHeight ≤ h0 then
            ({ s with searchPhaseUp := true,
                      currentHeight := s.currentHeight + verticalSpeed * controlDelay,
                      lastControlTime := now },
             { cmds := [{ vx := 0, vy := 0, vz := verticalSpeed, yawRate := 0 }],
               sel := none, effs := [] })
          else
            ({ s with currentHeight := s.currentHeight + (-verticalSpeed * (1/2)) * controlDelay,
                      lastControlTime := now },
             { cmds := [{ vx := 0, vy := 0, vz := -verticalSpeed * (1/2), yawRate := 0 }],
               sel := none, effs := [] })
    else (s, { cmds := [], sel := none, effs := [] })

/-! ### One iteration of the frame loop (lines 564-874) -/

/-- The per-frame input: the detector's result (`none` when
`aruco_detector.detectMarkers` returned `ids = None`), the decoded QR text
for the scanning phase, the frame dimensions, and the wall clock. -/
structure FrameIn where
  detection : Option (List Cand)
  qr : Option String
  frameWidth : ℚ
  frameHeight : ℚ
  now : ℚ

/-- One iteration of `while True` (a frame that was not `None`):
`if not target_reached` dispatches on
`np.all(ids is not None) and not retreat_mode` (line 574); otherwise the QR
branch runs. -/
def flyFrameStep (s : FlyState) (f : FrameIn) (db : String → Option DbItem) :
    FlyState × StepOut :=
  if s.targetReached then qrBranch s f.qr f.now db
  else
    match f.detection with
    | some cands =>
      if s.retreatMode then noMarkerBranch s f.now
      else followBranch s cands f.frameWidth f.frameHeight f.now
    | none => noMarkerBranch s f.now

/-- Run a sequence of frames. -/
def flyRun (s : FlyState) (fs : List FrameIn) (db : String → Option DbItem) : FlyState :=
  fs.foldl (fun st f => (flyFrameStep st f db).1) s

/-- The loop state right after the initialisation of `fly` (lines 549-561)
and `__init__`: no lock, zero counters, yaw search inactive, Following phase.
`startTime` is the `time.time()` stored into `last_control_time` (line 549). -/
def initFlyState (startTime : ℚ) : FlyState :=
  { lockedMarkerId := none, markerLostFrames := 0, framesWithoutMarker := 0,
    scannedMarkers := [], scannedQrCodes := [], scanResultsQr := [],
    scanResultsMarkers := [], failedQr := [], successfulScans := 0, retryCount := 0,
    retreatMode := false, retreatStartTime := 0, targetReached := false,
    lastControlTime := startTime, yawSearchActive := false, yawSearchAngle := 0,
    yawSearchDirPos := true, currentArucoId := none, searchPhaseUp := true,
    currentHeight := minHeight, initialHeight := none }

/-! ### Session shutdown and finalization (flight.py lines 225-262, 453-525, 910-917)

`safe_landing` (also installed as the SIGINT/SIGTERM handler) returns to the
launch point, lands, closes the connection, calls `end_scan_session` for the
session uuid in its `finally`, and exits the process with `sys.exit(0)`.  The
`finally` of `fly` runs `save_scan_results` — which writes per-code history
and calls `end_scan_session(uuid, "completed", report)` — and then calls
`safe_landing` again.  A signal raises `SystemExit` inside the loop via the
handler's `sys.exit(0)`; `except Exception` does not catch it, so the
`finally` of `fly` still runs afterwards. -/

/-- Externally visible shutdown events. -/
inductive ShutdownEv
  | goHome
  | land
  | closeConn
  | scanHist (result : String)
  | endSession (uuid : String) (status : String)
  | procExit
deriving DecidableEq

/-- `ArucoFlight.safe_landing` (lines 225-262): return/land only when still
flying, close the connection, then always finalize the session (when a uuid
exists) and exit. -/
def safeLandingEvents (uuid : Option String) (isFlying hasMini : Bool) : List ShutdownEv :=
  (if isFlying && hasMini then [ShutdownEv.goHome, ShutdownEv.land] else []) ++
  (if hasMini then [ShutdownEv.closeConn] else []) ++
  (match uuid with
   | some u => [ShutdownEv.endSession u "completed"]
   | none => []) ++
  [ShutdownEv.procExit]

/-- `ArucoFlight.save_scan_results` (lines 453-525): nothing without a uuid;
otherwise history rows for each scanned code found in the database and each
failed code, then `end_scan_session(uuid, "completed", report)`. -/
def saveScanResultsEvents (uuid : Option String) (scannedQr failedQr : List String)
    (db : String → Option DbItem) : List ShutdownEv :=
  match uuid with
  | none => []
  | some u =>
    (scannedQr.filterMap (fun q => (db q).map (fun _ => ShutdownEv.scanHist "success"))) ++
    failedQr.map (fun q => ShutdownEv.scanHist ("failed_qr: " ++ q)) ++
    [ShutdownEv.endSession u "completed"]

/-- The three exit paths of a flight session named by the specification. -/
inductive ExitPath
  | normalExit   -- ESC / window closed: `break` out of the loop
  | errorExit    -- unhandled exception in the frame loop, caught at line 910
  | signalExit   -- SIGINT/SIGTERM while flying
deriving DecidableEq

/-- Shutdown event sequence of `fly` on each exit path.  Normal and error
exits run the `finally` block (lines 914-917): `save_scan_results` then
`safe_landing` (still flying).  A signal first runs `safe_landing` as the
handler (flying; it clears `is_flying`), whose `sys.exit(0)` then unwinds
into the same `finally`, where `safe_landing` runs a second time with
`is_flying` already false. -/
def flyShutdownEvents (p : ExitPath) (uuid : Option String)
    (scannedQr failedQr : List String) (db : String → Option DbItem) : List ShutdownEv :=
  match p with
  | ExitPath.normalExit =>
    saveScanResultsEvents uuid scannedQr failedQr db ++ safeLandingEvents uuid true true
  | ExitPath.errorExit =>
    saveScanResultsEvents uuid scannedQr failedQr db ++ safeLandingEvents uuid true true
  | ExitPath.signalExit =>
    safeLandingEvents uuid true true ++
    saveScanResultsEvents uuid scannedQr failedQr db ++ safeLandingEvents uuid false true

/-- Number of `end_scan_session` calls in an event sequence. -/
def countEndSession (evs : List ShutdownEv) : Nat :=
  (evs.filter (fun e =>
    match e with
    | ShutdownEv.endSession _ _ => true
    | _ => false)).length

/-! ### Basic lemmas about the computable rational helpers -/

theorem qabs_eq_abs (x : ℚ) : qabs x = |x| := by
  unfold qabs
  rcases lt_or_ge x 0 with h | h
  · rw [if_pos h, abs_of_neg h]
  · rw [if_neg (not_lt.mpr h), abs_of_nonneg h]

theorem qmax_eq_max (a b : ℚ) : qmax a b = max a b := (max_def a b).symm

theorem qmin_eq_min (a b : ℚ) : qmin a b = min a b := by
  unfold qmin
  rcases le_total b a with h | h
  · rw [if_pos h, min_eq_right h]
  · rcases eq_or_lt_of_le h with rfl | hlt
    · simp
    · rw [if_neg (not_le.mpr hlt), min_eq_left h]

theorem qsign_trichotomy (x : ℚ) : qsign x = 1 ∨ qsign x = -1 ∨ qsign x = 0 := by
  unfold qsign
  rcases lt_trichotomy 0 x with h | h | h
  · exact Or.inl (if_pos h)
  · right; right
    rw [if_neg (h ▸ lt_irrefl 0), if_neg (h ▸ lt_irrefl 0)]
  · right; left
    rw [if_neg (not_lt.mpr h.le), if_pos h]

theorem qabs_qsign_le_one (x : ℚ) : qabs (qsign x) ≤ 1 := by
  rcases qsign_trichotomy x with h | h | h <;> rw [h] <;> rw [qabs_eq_abs] <;> norm_num

/-! ### Claim C1: session finalization across exit paths -/

theorem countEndSession_append (a b : List ShutdownEv) :
    countEndSession (a ++ b) = countEndSession a + countEndSession b := by
  simp [countEndSession, List.filter_append]

theorem countEndSession_history_success (sq : List String) (db : String → Option DbItem) :
    countEndSession
      (sq.filterMap (fun q => (db q).map (fun _ => ShutdownEv.scanHist "success"))) = 0 := by
  unfold countEndSession
  rw [List.filter_eq_nil.mpr, List.length_nil]
  intro e he
  rcases List.mem_filterMap.mp he with ⟨q, _, hq⟩
  rcases Option.map_eq_some'.mp hq with ⟨_, _, rfl⟩
  simp

theorem countEndSession_history_failed (fq : List String) :
    countEndSession (fq.map (fun q => ShutdownEv.scanHist ("failed_qr: " ++ q))) = 0 := by
  unfold countEndSession
  rw [List.filter_eq_nil.mpr, List.length_nil]
  intro e he
  rcases List.mem_map.mp he with ⟨q, _, rfl⟩
  simp

theorem countEndSession_saveScanResults (u : String) (sq fq : List String)
    (db : String → Option DbItem) :
    countEndSession (saveScanResultsEvents (some u) sq fq db) = 1 := by
  unfold saveScanResultsEvents
  rw [countEndSession_append, countEndSession_append,
    countEndSession_history_success, countEndSession_history_failed]
  rfl

theorem countEndSession_safeLanding (u : String) (fl mn : Bool) :
    countEndSession (safeLandingEvents (some u) fl mn) = 1 := by
  unfold safeLandingEvents
  cases fl <;> cases mn <;> rfl

/-- Claim C1 (counterexample): on the normal loop exit of a session with a
uuid, `end_scan_session` is called twice — once by `save_scan_results` and
once more by `safe_landing` in the `finally` of `fly` — so finalization is
not performed exactly once. -/
theorem c1_counterexample :
    countEndSession
      (flyShutdownEvents ExitPath.normalExit (some "session-1") [] [] (fun _ => none)) = 2 ∧
    countEndSession
      (flyShutdownEvents ExitPath.normalExit (some "session-1") [] [] (fun _ => none)) ≠ 1 := by
  constructor
  · rfl
  · decide

/-- Claim C1 (amended): on every exit path of a flight session with a session
uuid — normal loop exit, unhandled exception in the frame loop, or a
termination signal — `end_scan_session` for the session's uuid is called at
least once, but not exactly once: the normal and error exits call it twice
(`save_scan_results`, then `safe_landing`), and a termination signal leads to
three calls (the signal handler's `safe_landing`, then the `finally` of `fly`
runs `save_scan_results` and `safe_landing` again). -/
theorem c1_finalization_counts (p : ExitPath) (u : String) (sq fq : List String)
    (db : String → Option DbItem) :
    1 ≤ countEndSession (flyShutdownEvents p (some u) sq fq db) ∧
    countEndSession (flyShutdownEvents p (some u) sq fq db) =
      (match p with
       | ExitPath.normalExit => 2
       | ExitPath.errorExit => 2
       | ExitPath.signalExit => 3) := by
  cases p <;>
    simp [flyShutdownEvents, countEndSession_append, countEndSession_saveScanResults,
      countEndSession_safeLanding]

/-! ### Claim C4: the Retreating phase -/

/-- State mid-retreat with a live marker lock, for the C4 instances. -/
def c4State : FlyState :=
  { initFlyState 0 with retreatMode := true, retreatStartTime := 0,
                        lockedMarkerId := some 3, markerLostFrames := 7 }

/-- A frame arriving after the retreat timer expired, with a marker visible. -/
def c4Frame : FrameIn :=
  { detection := some [{ id := 2, side1 := 10, side2 := 10, side3 := 10, side4 := 10,
                         centerX := 320, centerY := 240, dist := some 1 }],
    qr := none, frameWidth := 640, frameHeight := 480, now := 10 }

/-- Claim C4 (counterexample): when the retreat timer expires, the phase
returns to Following and `YawSearching` is re-armed, but the lock state is
not cleared: `locked_marker_id` stays `some 3` and `marker_lost_frames`
stays `7`. -/
theorem c4_counterexample :
    (flyFrameStep c4State c4Frame (fun _ => none)).1.retreatMode = false ∧
    (flyFrameStep c4State c4Frame (fun _ => none)).1.yawSearchActive = true ∧
    (flyFrameStep c4State c4Frame (fun _ => none)).1.lockedMarkerId = some 3 ∧
    (flyFrameStep c4State c4Frame (fun _ => none)).1.lockedMarkerId ≠ none ∧
    (flyFrameStep c4State c4Frame (fun _ => none)).1.markerLostFrames = 7 := by
  with_unfolding_all decide

/-- Claim C4 (amended): whenever the Retreating phase is active it lasts at
least `retreat_time` of wall clock — on every frame arriving earlier the
fixed backward command is issued and nothing changes, regardless of marker
visibility — and on the first frame at or after expiry the phase returns to
Following with `frames_without_marker` cleared, `YawSearching` re-enabled and
a zero command; the lock state (`locked_marker_id`) and the lost-frame
counter `marker_lost_frames` are not cleared by the expiry. -/
theorem c4_retreat_behavior (s : FlyState) (f : FrameIn) (db : String → Option DbItem)
    (ht : s.targetReached = false) (hr : s.retreatMode = true) :
    (f.now - s.retreatStartTime < retreatTime →
      flyFrameStep s f db = (s, { cmds := [retreatCmd], sel := none, effs := [] })) ∧
    (retreatTime ≤ f.now - s.retreatStartTime →
      flyFrameStep s f db =
        ({ s with retreatMode := false, targetReached := false, framesWithoutMarker := 0,
                  yawSearchActive := true, yawSearchAngle := 0, yawSearchDirPos := true,
                  lastControlTime := f.now },
         { cmds := [zeroCmd], sel := none, effs := [] }) ∧
      (flyFrameStep s f db).1.lockedMarkerId = s.lockedMarkerId ∧
      (flyFrameStep s f db).1.markerLostFrames = s.markerLostFrames) := by
  have hstep : flyFrameStep s f db = noMarkerBranch s f.now := by
    unfold flyFrameStep
    rw [ht]
    cases f.detection <;> simp [hr]
  constructor
  · intro h
    rw [hstep]
    unfold noMarkerBranch
    rw [hr, if_pos rfl, if_pos h]
  · intro h
    rw [hstep]
    unfold noMarkerBranch
    rw [hr, if_pos rfl, if_neg (not_lt.mpr h)]
    exact ⟨rfl, rfl, rfl⟩

/-- Witness for `c4_retreat_behavior` at the concrete mid-retreat state. -/
theorem c4_retreat_behavior_witness :
    (flyFrameStep c4State c4Frame (fun _ => none)).1.lockedMarkerId = c4State.lockedMarkerId ∧
    flyFrameStep c4State { c4Frame with now := 2 } (fun _ => none) =
      (c4State, { cmds := [retreatCmd], sel := none, effs := [] }) := by
  constructor
  · exact ((c4_retreat_behavior c4State c4Frame (fun _ => none) rfl rfl).2
      (by with_unfolding_all decide)).2.1
  · exact (c4_retreat_behavior c4State { c4Frame with now := 2 } (fun _ => none) rfl rfl).1
      (by with_unfolding_all decide)

/-! ### Claim C5: lateral floor and yaw halving in the control law -/

/-- Claim C5 (counterexample): at pixel offset `dx = 40` on a 640-wide frame
(`|dx| ≤ frameWidth/4`, ratio `1/4`), the lateral command sits on its floor
`centering_speed/2 = 3/50`, yet the yaw command is the unhalved linear value
`yaw_speed * 1/4 = 1/40`, not the halved `1/80` the claim requires. -/
theorem c5_counterexample :
    calcControlSpeed (27/20) 360 240 480 640 = (3/50, 0, 0, 1/40) ∧
    (3/50 : ℚ) = centeringSpeed * (1/2) ∧
    (calcControlSpeed (27/20) 360 240 480 640).2.2.2 ≠ yawSpeed * (1/4) * (1/2) := by
  with_unfolding_all decide

/-- Claim C5 (amended): when `|dx| ≤ frameWidth/4`, the lateral command is the
linear term `centering_speed * |dx|/(frameWidth/4)` floored at half the
maximum centering speed (signed by `dx`); the yaw command is halved exactly
when the linear term strictly exceeds the floor — that is, when the floor is
not in effect — and keeps its full linear value whenever the floor is in
effect. -/
theorem c5_control_law (distance xc yc fh fw : ℚ)
    (hbranch : ¬ (qabs (xc - fw/2) > fw/4)) :
    (calcControlSpeed distance xc yc fh fw).1 =
      qmax (centeringSpeed * (1/2)) (centeringSpeed * (qabs (xc - fw/2) / (fw/4))) *
        qsign (xc - fw/2) ∧
    (centeringSpeed * (1/2) < centeringSpeed * (qabs (xc - fw/2) / (fw/4)) →
      xc - fw/2 ≠ 0 →
      (calcControlSpeed distance xc yc fh fw).2.2.2 =
        yawSpeed * (qabs (xc - fw/2) / (fw/4)) * qsign (xc - fw/2) * (1/2)) ∧
    (centeringSpeed * (qabs (xc - fw/2) / (fw/4)) ≤ centeringSpeed * (1/2) →
      (calcControlSpeed distance xc yc fh fw).2.2.2 =
        yawSpeed * (qabs (xc - fw/2) / (fw/4)) * qsign (xc - fw/2)) := by
  have hcs : (0:ℚ) < centeringSpeed * (1/2) := by norm_num [centeringSpeed]
  simp only [calcControlSpeed]
  rw [if_neg hbranch]
  refine ⟨rfl, ?_, ?_⟩
  · intro h1 h2
    have hmax : qmax (centeringSpeed * (1/2)) (centeringSpeed * (qabs (xc - fw/2) / (fw/4)))
        = centeringSpeed * (qabs (xc - fw/2) / (fw/4)) := by
      unfold qmax
      rw [if_pos h1.le]
    have hsgn : qabs (qsign (xc - fw/2)) = 1 := by
      unfold qsign
      rcases lt_trichotomy 0 (xc - fw/2) with hx | hx | hx
      · rw [if_pos hx]; rfl
      · exact absurd hx.symm h2
      · rw [if_neg (not_lt.mpr hx.le), if_pos hx]; rfl
    have hcond : qabs (qmax (centeringSpeed * (1/2))
        (centeringSpeed * (qabs (xc - fw/2) / (fw/4))) * qsign (xc - fw/2))
        > centeringSpeed * (1/2) := by
      rw [hmax, qabs_eq_abs, abs_mul, ← qabs_eq_abs (qsign (xc - fw/2)), hsgn, mul_one,
        ← qabs_eq_abs, qabs_eq_abs, abs_of_nonneg (le_of_lt (lt_trans hcs h1))]
      exact h1
    rw [if_pos hcond]
  · intro h1
    have hmax : qmax (centeringSpeed * (1/2)) (centeringSpeed * (qabs (xc - fw/2) / (fw/4)))
        = centeringSpeed * (1/2) := by
      unfold qmax
      rcases eq_or_lt_of_le h1 with he | hlt
      · rw [he]; split <;> rfl
      · rw [if_neg (not_le.mpr hlt)]
    have hcond : ¬ (qabs (qmax (centeringSpeed * (1/2))
        (centeringSpeed * (qabs (xc - fw/2) / (fw/4))) * qsign (xc - fw/2))
        > centeringSpeed * (1/2)) := by
      rw [hmax, qabs_eq_abs, abs_mul, abs_of_nonneg hcs.le]
      push_neg
      calc centeringSpeed * (1/2) * |qsign (xc - fw/2)|
          ≤ centeringSpeed * (1/2) * 1 := by
            refine mul_le_mul_of_nonneg_left ?_ hcs.le
            rw [← qabs_eq_abs]
            exact qabs_qsign_le_one _
        _ = centeringSpeed * (1/2) := mul_one _
    rw [if_neg hcond]

/-- Witness for `c5_control_law` at `dx = 40` on a 640-wide frame. -/
theorem c5_control_law_witness :
    (calcControlSpeed (27/20) 360 240 480 640).1 =
      qmax (centeringSpeed * (1/2)) (centeringSpeed * (qabs (360 - 640/2) / (640/4))) *
        qsign (360 - 640/2) ∧
    (calcControlSpeed (27/20) 360 240 480 640).2.2.2 =
      yawSpeed * (qabs (360 - 640/2) / (640/4)) * qsign (360 - 640/2) := by
  have h := c5_control_law (27/20) 360 240 480 640 (by with_unfolding_all decide)
  exact ⟨h.1, h.2.2 (by with_unfolding_all decide)⟩

/-! ### Claim C2: duplicate decoded codes are idempotent successes -/

/-- Claim C2: a decoded text already in the session's `scanned_qr_codes` set
makes `process_qr_data` return success immediately with no persistence call
at all (in particular no second `add_item`), the scanning branch of `fly`
counts it as a successful scan, and — since the QR branch only runs outside
retreat — it starts the Retreating maneuver with the backward command. -/
theorem c2_duplicate_code (s : FlyState) (qrData : String) (db : String → Option DbItem)
    (now : ℚ) (hdup : qrData ∈ s.scannedQrCodes) :
    processQrData s qrData db = (true, s, []) ∧
    (qrBranch s (some qrData) now db).2.effs = [] ∧
    (qrBranch s (some qrData) now db).1.successfulScans = s.successfulScans + 1 ∧
    (s.retreatMode = false →
      (qrBranch s (some qrData) now db).1.retreatMode = true ∧
      (qrBranch s (some qrData) now db).1.targetReached = false ∧
      (qrBranch s (some qrData) now db).2.cmds = [retreatCmd]) := by
  have hp : processQrData s qrData db = (true, s, []) := by
    unfold processQrData
    rw [if_pos hdup]
  refine ⟨hp, ?_, ?_, ?_⟩
  · simp only [qrBranch, hp]
    cases harc : s.currentArucoId <;> by_cases hr : s.retreatMode <;> simp [harc, hr]
  · simp only [qrBranch, hp]
    cases harc : s.currentArucoId <;> by_cases hr : s.retreatMode <;> simp [harc, hr]
  · intro hr
    simp only [qrBranch, hp]
    cases harc : s.currentArucoId <;> simp [harc, hr]

/-- A state with one code already scanned, for the C2 witness. -/
def c2State : FlyState :=
  { initFlyState 0 with scannedQrCodes := ["id: abc"], targetReached := true }

/-- Witness for `c2_duplicate_code` on a concrete duplicate text. -/
theorem c2_duplicate_code_witness :
    processQrData c2State "id: abc" (fun _ => none) = (true, c2State, []) ∧
    (qrBranch c2State (some "id: abc") 50 (fun _ => none)).1.successfulScans =
      c2State.successfulScans + 1 ∧
    (qrBranch c2State (some "id: abc") 50 (fun _ => none)).1.retreatMode = true := by
  have h := c2_duplicate_code c2State "id: abc" (fun _ => none) 50 (by decide)
  exact ⟨h.1, h.2.2.1, (h.2.2.2 rfl).1⟩

/-! ### Claim C10: decoding with no usable marker location -/

theorem mem_addSet_self {α : Type} [DecidableEq α] (x : α) (l : List α) :
    x ∈ addSet x l := by
  unfold addSet
  split
  · assumption
  · exact List.mem_cons_self x l

/-- A state that already scanned `"dup"`, with no current marker. -/
def c10DupState : FlyState :=
  { initFlyState 0 with scannedQrCodes := ["dup"], targetReached := true }

/-- Claim C10 (counterexample): a code that is already in `scanned_qr_codes`
is accepted as a success before the location check runs, even though the
current marker id is unset — no invalid-location event is recorded and the
result does not count as failed. -/
theorem c10_counterexample :
    c10DupState.currentArucoId = none ∧
    processQrData c10DupState "dup" (fun _ => none) = (true, c10DupState, []) ∧
    (processQrData c10DupState "dup" (fun _ => none)).1 ≠ false := by
  with_unfolding_all decide

/-- Claim C10 (amended): if a decoded text that is not yet in the session's
`scanned_qr_codes` set arrives while the current marker id is unset or has no
entry in `ARUCO_LOCATIONS`, `process_qr_data` fails without persisting any
item, records an `invalid_location` scan event, and the scanning branch of
`fly` counts a failed attempt (the text joins `failed_qr` and the retry
counter grows by one). -/
theorem c10_invalid_location (s : FlyState) (qrData : String) (db : String → Option DbItem)
    (now : ℚ) (hnew : qrData ∉ s.scannedQrCodes)
    (hloc : s.currentArucoId.bind arucoLocations = none) :
    processQrData s qrData db =
      (false, s, [DbEffect.scanHist ("invalid_location: " ++ qrData)]) ∧
    (∀ e ∈ (processQrData s qrData db).2.2, e.isAddItem = false) ∧
    (qrBranch s (some qrData) now db).1.retryCount = s.retryCount + 1 ∧
    qrData ∈ (qrBranch s (some qrData) now db).1.failedQr := by
  have hp : processQrData s qrData db =
      (false, s, [DbEffect.scanHist ("invalid_location: " ++ qrData)]) := by
    unfold processQrData
    rw [if_neg hnew, hloc]
  have h1 : (processQrData s qrData db).1 = false := by rw [hp]
  have h2 : (processQrData s qrData db).2.1 = s := by rw [hp]
  refine ⟨hp, ?_, ?_, ?_⟩
  · rw [hp]
    intro e he
    rcases List.mem_singleton.mp he with rfl
    rfl
  · simp only [qrBranch, h1, h2, Bool.false_eq_true, if_false]
    split <;> rfl
  · simp only [qrBranch, h1, h2, Bool.false_eq_true, if_false]
    split <;> exact mem_addSet_self _ _

/-- A fresh scanning-phase state with no current marker, for the C10 witness. -/
def c10State : FlyState := { initFlyState 0 with targetReached := true }

/-- Witness for `c10_invalid_location` on a concrete fresh text. -/
theorem c10_invalid_location_witness :
    processQrData c10State "id: abc" (fun _ => none) =
      (false, c10State, [DbEffect.scanHist "invalid_location: id: abc"]) ∧
    (qrBranch c10State (some "id: abc") 50 (fun _ => none)).1.retryCount =
      c10State.retryCount + 1 := by
  have h := c10_invalid_location c10State "id: abc" (fun _ => none) 50
    (by decide) (by decide)
  exact ⟨h.1, h.2.2.1⟩

/-! ### Claim C9: decoded texts missing a required field -/

/-- A scanning-phase state locked on marker 0, for the C9 instances. -/
def c9CrashState : FlyState :=
  { initFlyState 0 with currentArucoId := some 0, targetReached := true }

/-- Claim C9 (counterexample): the decoded text `"Предмет"` carries no
identifier field, yet no invalid-format outcome is recorded: the item line has
no colon, so `line.split(':')[1]` raises `IndexError`, the blanket handler
returns `False`, and the effect log stays empty. -/
theorem c9_counterexample :
    parseQrFields "Предмет" = none ∧
    processQrData c9CrashState "Предмет" (fun _ => none) = (false, c9CrashState, []) ∧
    DbEffect.scanHist ("invalid_format: " ++ "Предмет") ∉
      (processQrData c9CrashState "Предмет" (fun _ => none)).2.2 := by
  with_unfolding_all decide

/-- Claim C9 (amended): for every decoded text whose field parse completes
(no `предмет` line lacking a colon) but is missing a required field
(identifier or name), arriving fresh with a usable marker location: the scan
is recorded as an `invalid_format` outcome, no item is persisted, the text
joins `failed_qr` with the retry counter incremented by exactly 1, and the
scan attempt is abandoned (transition to Retreating with the backward
command) as soon as the — never reset, hence in particular after 5
consecutive failures — retry counter reaches 5. -/
theorem c9_invalid_format (s : FlyState) (qrData : String) (db : String → Option DbItem)
    (now : ℚ) (flds : ParsedFields) (loc : String × String)
    (hnew : qrData ∉ s.scannedQrCodes)
    (hloc : s.currentArucoId.bind arucoLocations = some loc)
    (hparse : parseQrFields qrData = some flds)
    (hmiss : flds.qrCode = none ∨ flds.name = none) :
    processQrData s qrData db =
      (false, s, [DbEffect.scanHist ("invalid_format: " ++ qrData)]) ∧
    (∀ e ∈ (processQrData s qrData db).2.2, e.isAddItem = false) ∧
    (qrBranch s (some qrData) now db).1.retryCount = s.retryCount + 1 ∧
    qrData ∈ (qrBranch s (some qrData) now db).1.failedQr ∧
    (5 ≤ s.retryCount + 1 → s.retreatMode = false →
      (qrBranch s (some qrData) now db).1.retreatMode = true ∧
      (qrBranch s (some qrData) now db).1.targetReached = false ∧
      (qrBranch s (some qrData) now db).2.cmds = [retreatCmd]) := by
  have hp : processQrData s qrData db =
      (false, s, [DbEffect.scanHist ("invalid_format: " ++ qrData)]) := by
    unfold processQrData
    rw [if_neg hnew, hloc, hparse]
    dsimp only
    rcases hmiss with h | h
    · rw [h]
    · rw [h]
      cases hq : flds.qrCode <;> rfl
  have h1 : (processQrData s qrData db).1 = false := by rw [hp]
  have h2 : (processQrData s qrData db).2.1 = s := by rw [hp]
  have h3 : (processQrData s qrData db).2.2 =
      [DbEffect.scanHist ("invalid_format: " ++ qrData)] := by rw [hp]
  refine ⟨hp, ?_, ?_, ?_, ?_⟩
  · rw [hp]
    intro e he
    rcases List.mem_singleton.mp he with rfl
    rfl
  · simp only [qrBranch, h1, h2, Bool.false_eq_true, if_false]
    split <;> rfl
  · simp only [qrBranch, h1, h2, Bool.false_eq_true, if_false]
    split <;> exact mem_addSet_self _ _
  · intro h5 hr
    simp only [qrBranch, h1, h2, h3, Bool.false_eq_true, if_false]
    simp [h5, hr]

/-- A scanning-phase state with four pending failures, for the C9 witness. -/
def c9State : FlyState :=
  { initFlyState 0 with currentArucoId := some 0, targetReached := true, retryCount := 4 }

/-- Witness for `c9_invalid_format` on `"id: abc"` (name field missing), with
the fifth failure triggering the retreat. -/
theorem c9_invalid_format_witness :
    processQrData c9State "id: abc" (fun _ => none) =
      (false, c9State, [DbEffect.scanHist "invalid_format: id: abc"]) ∧
    (qrBranch c9State (some "id: abc") 50 (fun _ => none)).1.retryCount = 5 ∧
    (qrBranch c9State (some "id: abc") 50 (fun _ => none)).1.retreatMode = true := by
  have h := c9_invalid_format c9State "id: abc" (fun _ => none) 50
    { qrCode := some "abc", name := none } ("1", "2")
    (by decide) (by decide) (by decide) (Or.inr rfl)
  exact ⟨h.1, h.2.2.1, ((h.2.2.2.2 (by decide) rfl)).1⟩

/-! ### Claim C7: entering Retreating after marker absence -/

theorem yawSearchStep_retreatMode (s : FlyState) (now : ℚ) :
    (yawSearchStep s now).1.retreatMode = s.retreatMode := by
  unfold yawSearchStep
  split_ifs <;> rfl

theorem yawSearchStep_targetReached (s : FlyState) (now : ℚ) :
    (yawSearchStep s now).1.targetReached = s.targetReached := by
  unfold yawSearchStep
  split_ifs <;> rfl

theorem yawSearchStep_framesWithoutMarker (s : FlyState) (now : ℚ) :
    (yawSearchStep s now).1.framesWithoutMarker = s.framesWithoutMarker := by
  unfold yawSearchStep
  split_ifs <;> rfl

/-- Dispatch of a detection-carrying frame outside retreat and scanning. -/
theorem flyFrameStep_follow (s : FlyState) (f : FrameIn) (db : String → Option DbItem)
    (cands : List Cand) (ht : s.targetReached = false) (hr : s.retreatMode = false)
    (hdet : f.detection = some cands) :
    flyFrameStep s f db = followBranch s cands f.frameWidth f.frameHeight f.now := by
  unfold flyFrameStep
  rw [ht, hdet]
  simp [hr]

/-- Dispatch of a no-detection frame outside the scanning phase. -/
theorem flyFrameStep_noDet (s : FlyState) (f : FrameIn) (db : String → Option DbItem)
    (ht : s.targetReached = false) (hdet : f.detection = none) :
    flyFrameStep s f db = noMarkerBranch s f.now := by
  unfold flyFrameStep
  rw [ht, hdet]
  simp

/-- A Following frame whose detections all fail the validity filter only
counts the frame (`continue`): no command, no retreat check. -/
theorem followBranch_no_valid (s : FlyState) (cands : List Cand) (fw fh now : ℚ)
    (hv : validFilter s.scannedMarkers cands = []) :
    followBranch s cands fw fh now =
      ({ s with framesWithoutMarker := s.framesWithoutMarker + 1 },
       { cmds := [], sel := none, effs := [] }) := by
  unfold followBranch
  rw [hv]

/-- A no-detection frame below the absence bound: the counter grows, phase
flags survive. -/
theorem noMarkerBranch_below (s : FlyState) (now : ℚ) (hr : s.retreatMode = false)
    (hk : ¬ 10 < s.framesWithoutMarker + 1) :
    (noMarkerBranch s now).1.retreatMode = false ∧
    (noMarkerBranch s now).1.targetReached = s.targetReached ∧
    (noMarkerBranch s now).1.framesWithoutMarker = s.framesWithoutMarker + 1 := by
  unfold noMarkerBranch
  rw [hr]
  simp only [Bool.false_eq_true, if_false]
  rw [if_neg]
  · refine ⟨?_, ?_, ?_⟩
    · rw [yawSearchStep_retreatMode]
    · rw [yawSearchStep_targetReached]
    · rw [yawSearchStep_framesWithoutMarker]
  · intro hcontra
    exact hk hcontra.1

/-- A no-detection frame that takes the absence counter past 10 enters
Retreating and ends with the backward command. -/
theorem noMarkerBranch_fire (s : FlyState) (now : ℚ) (hr : s.retreatMode = false)
    (hk : 10 < s.framesWithoutMarker + 1) :
    (noMarkerBranch s now).1.retreatMode = true ∧
    (noMarkerBranch s now).1.targetReached = false ∧
    (noMarkerBranch s now).1.retreatStartTime = now ∧
    (noMarkerBranch s now).2.cmds.getLast? = some retreatCmd := by
  unfold noMarkerBranch
  rw [hr]
  simp only [Bool.false_eq_true, if_false]
  rw [if_pos]
  · exact ⟨rfl, rfl, rfl, List.getLast?_concat _⟩
  · exact ⟨hk, by rw [yawSearchStep_retreatMode]⟩

/-- Run of no-detection frames staying at or below the bound. -/
theorem flyRun_noDet_below (fs : List FrameIn) : ∀ (s : FlyState) (db : String → Option DbItem),
    (∀ f ∈ fs, f.detection = none) → s.targetReached = false → s.retreatMode = false →
    s.framesWithoutMarker + fs.length ≤ 10 →
    (flyRun s fs db).retreatMode = false ∧ (flyRun s fs db).targetReached = false ∧
    (flyRun s fs db).framesWithoutMarker = s.framesWithoutMarker + fs.length := by
  induction fs with
  | nil => intro s db _ ht hr _; exact ⟨hr, ht, rfl⟩
  | cons f rest ih =>
    intro s db hdet ht hr hlen
    have hstep : flyFrameStep s f db = noMarkerBranch s f.now :=
      flyFrameStep_noDet s f db ht (hdet f (List.mem_cons_self f rest))
    have hk : ¬ 10 < s.framesWithoutMarker + 1 := by
      simp only [List.length_cons] at hlen
      omega
    have hbelow := noMarkerBranch_below s f.now hr hk
    have hrun : flyRun s (f :: rest) db = flyRun (noMarkerBranch s f.now).1 rest db := by
      unfold flyRun
      rw [List.foldl_cons, hstep]
    rw [hrun]
    have hres := ih (noMarkerBranch s f.now).1 db
      (fun g hg => hdet g (List.mem_cons_of_mem f hg))
      (hbelow.2.1.trans ht) hbelow.1
      (by
        rw [hbelow.2.2]
        simp only [List.length_cons] at hlen
        omega)
    refine ⟨hres.1, hres.2.1, ?_⟩
    rw [hres.2.2, hbelow.2.2]
    simp only [List.length_cons]
    omega

/-- Eleven consecutive frames each carrying one detected-but-invalid marker:
one below the confidence threshold, one already scanned, alternating. -/
def c7Frames : List FrameIn :=
  (List.range 11).map (fun i =>
    { detection := some
        (if i % 2 = 0 then
          [{ id := 9, side1 := 10, side2 := 3, side3 := 10, side4 := 3,
             centerX := 0, centerY := 0, dist := none }]
        else
          [{ id := 4, side1 := 10, side2 := 10, side3 := 10, side4 := 10,
             centerX := 0, centerY := 0, dist := some 1 }]),
      qr := none, frameWidth := 640, frameHeight := 480, now := (i : ℚ) })

/-- A fresh Following state that has already scanned marker 4. -/
def c7State : FlyState := { initFlyState 0 with scannedMarkers := [4] }

/-- Claim C7 (counterexample): eleven consecutive frames whose markers are
all detected but invalid (below the confidence threshold or already scanned)
push `frames_without_marker` to 11, yet no transition to Retreating happens —
those frames `continue` before the retreat check is reached. -/
theorem c7_counterexample :
    (flyRun c7State c7Frames (fun _ => none)).framesWithoutMarker = 11 ∧
    (flyRun c7State c7Frames (fun _ => none)).retreatMode = false ∧
    (flyRun c7State c7Frames (fun _ => none)).retreatMode ≠ true := by
  with_unfolding_all decide

/-- Claim C7 (amended): frames with detected-but-invalid markers (all below
the confidence threshold or already scanned) only increment the absence
counter — they never trigger the transition themselves; the transition to
Retreating fires on a frame with no detections at all once the counter
exceeds 10, with a backward velocity command issued, and in particular a run
of 11 consecutive no-detection frames from a fresh counter enters Retreating
on its last frame. -/
theorem c7_retreat_transition :
    (∀ (s : FlyState) (f : FrameIn) (db : String → Option DbItem) (cands : List Cand),
      s.targetReached = false → s.retreatMode = false → f.detection = some cands →
      validFilter s.scannedMarkers cands = [] →
      flyFrameStep s f db =
        ({ s with framesWithoutMarker := s.framesWithoutMarker + 1 },
         { cmds := [], sel := none, effs := [] })) ∧
    (∀ (s : FlyState) (f : FrameIn) (db : String → Option DbItem),
      s.targetReached = false → s.retreatMode = false → f.detection = none →
      10 < s.framesWithoutMarker + 1 →
      (flyFrameStep s f db).1.retreatMode = true ∧
      (flyFrameStep s f db).1.targetReached = false ∧
      (flyFrameStep s f db).2.cmds.getLast? = some retreatCmd) ∧
    (∀ (s : FlyState) (fs : List FrameIn) (f : FrameIn) (db : String → Option DbItem),
      s.targetReached = false → s.retreatMode = false → s.framesWithoutMarker = 0 →
      fs.length = 10 → (∀ g ∈ fs, g.detection = none) → f.detection = none →
      (flyFrameStep (flyRun s fs db) f db).1.retreatMode = true ∧
      (flyFrameStep (flyRun s fs db) f db).2.cmds.getLast? = some retreatCmd) := by
  refine ⟨?_, ?_, ?_⟩
  · intro s f db cands ht hr hdet hv
    rw [flyFrameStep_follow s f db cands ht hr hdet,
      followBranch_no_valid s cands _ _ _ hv]
  · intro s f db ht hr hdet hk
    rw [flyFrameStep_noDet s f db ht hdet]
    have h := noMarkerBranch_fire s f.now hr hk
    exact ⟨h.1, h.2.1, h.2.2.2⟩
  · intro s fs f db ht hr hzero hlen hdet hfin
    have hrun := flyRun_noDet_below fs s db hdet ht hr (by rw [hzero, hlen])
    rw [flyFrameStep_noDet (flyRun s fs db) f db hrun.2.1 hfin]
    have hk : 10 < (flyRun s fs db).framesWithoutMarker + 1 := by
      rw [hrun.2.2, hzero, hlen]
      omega
    have h := noMarkerBranch_fire (flyRun s fs db) f.now hrun.1 hk
    exact ⟨h.1, h.2.2.2⟩

/-- Ten empty-detection frames for the C7 witness run. -/
def c7NoDetFrames : List FrameIn :=
  (List.range 10).map (fun i =>
    { detection := none, qr := none, frameWidth := 640, frameHeight := 480, now := (i : ℚ) })

/-- Witness for `c7_retreat_transition`: from the fresh loop state, ten
no-detection frames followed by an eleventh enter Retreating with the
backward command. -/
theorem c7_retreat_transition_witness :
    (flyFrameStep (flyRun (initFlyState 0) c7NoDetFrames (fun _ => none))
      { detection := none, qr := none, frameWidth := 640, frameHeight := 480, now := 11 }
      (fun _ => none)).1.retreatMode = true ∧
    (flyFrameStep (flyRun (initFlyState 0) c7NoDetFrames (fun _ => none))
      { detection := none, qr := none, frameWidth := 640, frameHeight := 480, now := 11 }
      (fun _ => none)).2.cmds.getLast? = some retreatCmd := by
  exact c7_retreat_transition.2.2 (initFlyState 0) c7NoDetFrames
    { detection := none, qr := none, frameWidth := 640, frameHeight := 480, now := 11 }
    (fun _ => none) rfl rfl rfl (by decide)
    (by
      intro g hg
      simp only [c7NoDetFrames, List.mem_map] at hg
      rcases hg with ⟨i, _, rfl⟩
      rfl)
    rfl

/-! ### Claim C8: the YawSearching sub-mode -/

/-- Seven consecutive absent frames from the session start: the yaw search
has never been armed. -/
def c8State : FlyState := { initFlyState 0 with framesWithoutMarker := 6 }

/-- A no-detection frame long after the last command. -/
def c8Frame : FrameIn :=
  { detection := none, qr := none, frameWidth := 640, frameHeight := 480, now := 100 }

/-- Claim C8 (counterexample): before the first retreat the `yaw_search`
flag is still `False` (its `__init__` value), so a marker absent for 7
consecutive frames — well past the 5-frame window — produces no oscillation
command at all and the sub-mode stays inactive. -/
theorem c8_counterexample :
    5 < c8State.framesWithoutMarker + 1 ∧
    c8State.yawSearchActive = false ∧
    (flyFrameStep c8State c8Frame (fun _ => none)).2.cmds = [] ∧
    (flyFrameStep c8State c8Frame (fun _ => none)).1.yawSearchActive = false := by
  with_unfolding_all decide

/-- An inactive yaw search does nothing. -/
theorem yawSearchStep_inactive (s : FlyState) (now : ℚ)
    (hact : s.yawSearchActive = false) : yawSearchStep s now = (s, []) := by
  unfold yawSearchStep
  rw [if_neg, if_neg]
  · intro hc
    exact Bool.false_ne_true (hact ▸ hc.2)
  · intro hc
    exact Bool.false_ne_true (hact ▸ hc.2)

/-- Claim C8 (amended): the `YawSearching` sub-mode starts inactive and is
armed only when a retreat completes, so it never activates before the first
retreat however long a marker is absent; while inactive it does nothing and
stays inactive over no-detection frames; while active and the marker absent
for more than 5 frames, each `control_delay` it commands the yaw rate
`direction * yaw_speed` and advances the tracked angle by
`direction * step_rate * control_delay`, flipping the direction exactly when
the new angle reaches the configured bound; and inside the 5-frame window an
active search is deactivated on the next no-detection frame. -/
theorem c8_yaw_search (s : FlyState) (now : ℚ) (t : ℚ) :
    (initFlyState t).yawSearchActive = false ∧
    (s.retreatMode = true → retreatTime ≤ now - s.retreatStartTime →
      (noMarkerBranch s now).1.yawSearchActive = true ∧
      (noMarkerBranch s now).1.yawSearchAngle = 0 ∧
      (noMarkerBranch s now).1.yawSearchDirPos = true) ∧
    (s.yawSearchActive = false →
      yawSearchStep s now = (s, []) ∧
      (s.retreatMode = false → (noMarkerBranch s now).1.yawSearchActive = false)) ∧
    (5 < s.framesWithoutMarker → s.yawSearchActive = true →
      controlDelay ≤ now - s.lastControlTime →
      (yawSearchStep s now).2 =
        [{ vx := 0, vy := 0, vz := 0, yawRate := yawDirQ s.yawSearchDirPos * yawSpeed }] ∧
      (yawSearchStep s now).1.yawSearchAngle =
        s.yawSearchAngle + yawDirQ s.yawSearchDirPos * yawSearchStepRate * controlDelay ∧
      (yawSearchStep s now).1.yawSearchDirPos =
        (if qabs yawSearchMaxAngle ≤ qabs ((yawSearchStep s now).1.yawSearchAngle) then
          ! s.yawSearchDirPos else s.yawSearchDirPos)) ∧
    (s.framesWithoutMarker ≤ 5 → s.yawSearchActive = true →
      yawSearchStep s now = ({ s with yawSearchActive := false }, [])) := by
  refine ⟨rfl, ?_, ?_, ?_, ?_⟩
  · intro hr hexp
    unfold noMarkerBranch
    rw [hr]
    simp only [if_true]
    rw [if_neg (not_lt.mpr hexp)]
    exact ⟨rfl, rfl, rfl⟩
  · intro hact
    constructor
    · exact yawSearchStep_inactive s now hact
    · intro hr
      unfold noMarkerBranch
      rw [hr]
      simp only [Bool.false_eq_true, if_false]
      simp only [yawSearchStep_inactive, hact]
      split <;> rfl
  · intro h5 hact hdelay
    unfold yawSearchStep
    rw [if_pos ⟨h5, hact⟩, if_pos hdelay]
    exact ⟨rfl, rfl, rfl⟩
  · intro h5 hact
    unfold yawSearchStep
    rw [if_neg, if_pos ⟨h5, hact⟩]
    intro hc
    exact absurd hc.1 (not_lt.mpr h5)

/-- An armed yaw search near the angular bound, for the C8 witness. -/
def c8ActiveState : FlyState :=
  { initFlyState 0 with framesWithoutMarker := 7, yawSearchActive := true,
                        yawSearchAngle := 36, lastControlTime := 0 }

/-- A mid-retreat state whose timer has expired, for the C8 witness. -/
def c8RetreatState : FlyState :=
  { initFlyState 0 with retreatMode := true, retreatStartTime := 0 }

/-- Witness for `c8_yaw_search`: the armed search at 36° commands a positive
yaw rotation, advances to 48° and flips its direction at the bound. -/
theorem c8_yaw_search_witness :
    (yawSearchStep c8ActiveState 10).2 =
      [{ vx := 0, vy := 0, vz := 0,
         yawRate := yawDirQ c8ActiveState.yawSearchDirPos * yawSpeed }] ∧
    (yawSearchStep c8ActiveState 10).1.yawSearchAngle =
      c8ActiveState.yawSearchAngle +
        yawDirQ c8ActiveState.yawSearchDirPos * yawSearchStepRate * controlDelay ∧
    (noMarkerBranch c8RetreatState 10).1.yawSearchActive = true := by
  have h := c8_yaw_search c8ActiveState 10 0
  have h2 := c8_yaw_search c8RetreatState 10 0
  refine ⟨?_, ?_, ?_⟩
  · exact (h.2.2.2.1 (by decide) rfl (by with_unfolding_all decide)).1
  · exact (h.2.2.2.1 (by decide) rfl (by with_unfolding_all decide)).2.1
  · exact (h2.2.1 rfl (by with_unfolding_all decide)).1

/-! ### Claim C3: bounds on emitted velocity commands -/

theorem qabs_nonneg (x : ℚ) : 0 ≤ qabs x := by
  rw [qabs_eq_abs]
  exact abs_nonneg x

theorem qabs_mul (a b : ℚ) : qabs (a * b) = qabs a * qabs b := by
  rw [qabs_eq_abs, qabs_eq_abs, qabs_eq_abs]
  exact abs_mul a b

theorem qabs_clip_le (v b : ℚ) (hb : 0 ≤ b) : qabs (clip v (-b) b) ≤ b := by
  unfold clip
  rw [qabs_eq_abs, qmax_eq_max, qmin_eq_min, abs_le]
  exact ⟨le_max_left _ _, max_le (by linarith) (min_le_right v b)⟩

/-- With `|x| ≤ t`, the ratio `|x|/t` lies in `[0, 1]` (also when `t = 0`,
where the rational division is 0). -/
theorem ratio_unit_interval (x t : ℚ) (h : ¬ qabs x > t) :
    0 ≤ qabs x / t ∧ qabs x / t ≤ 1 := by
  have h0 : 0 ≤ qabs x := qabs_nonneg x
  have hxt : qabs x ≤ t := not_lt.mp h
  have ht0 : 0 ≤ t := le_trans h0 hxt
  rcases eq_or_lt_of_le ht0 with he | hpos
  · rw [← he]
    norm_num
  · exact ⟨div_nonneg h0 ht0, (div_le_one hpos).mpr hxt⟩

theorem qabs_mul_qsign_le (a x : ℚ) (ha : 0 ≤ a) : qabs (a * qsign x) ≤ a := by
  rw [qabs_mul]
  calc qabs a * qabs (qsign x) ≤ qabs a * 1 :=
        mul_le_mul_of_nonneg_left (qabs_qsign_le_one x) (qabs_nonneg a)
    _ = qabs a := mul_one _
    _ = a := by rw [qabs_eq_abs, abs_of_nonneg ha]

/-- Projection of the lateral command out of `calculate_control_speed`. -/
theorem calcControlSpeed_vx_eq (distance xc yc fh fw : ℚ) :
    (calcControlSpeed distance xc yc fh fw).1 =
      if qabs (xc - fw/2) > fw/4 then centeringSpeed * qsign (xc - fw/2)
      else qmax (centeringSpeed * (1/2)) (centeringSpeed * (qabs (xc - fw/2) / (fw/4))) *
        qsign (xc - fw/2) := by
  simp only [calcControlSpeed]
  split <;> rfl

/-- Projection of the yaw command out of `calculate_control_speed`. -/
theorem calcControlSpeed_yaw_eq (distance xc yc fh fw : ℚ) :
    (calcControlSpeed distance xc yc fh fw).2.2.2 =
      if qabs (xc - fw/2) > fw/4 then yawSpeed * qsign (xc - fw/2)
      else if qabs (qmax (centeringSpeed * (1/2))
          (centeringSpeed * (qabs (xc - fw/2) / (fw/4))) * qsign (xc - fw/2)) >
          centeringSpeed * (1/2) then
        yawSpeed * (qabs (xc - fw/2) / (fw/4)) * qsign (xc - fw/2) * (1/2)
      else yawSpeed * (qabs (xc - fw/2) / (fw/4)) * qsign (xc - fw/2) := by
  simp only [calcControlSpeed]
  split
  · rfl
  · split <;> rfl

/-- Projection of the vertical command out of `calculate_control_speed`. -/
theorem calcControlSpeed_vz_eq (distance xc yc fh fw : ℚ) :
    (calcControlSpeed distance xc yc fh fw).2.2.1 =
      if qabs (yc - fh/2) > centerThreshold then -verticalSpeed * qsign (yc - fh/2)
      else 0 := by
  simp only [calcControlSpeed]

/-- The three bounded axes of `calculate_control_speed`: the lateral, yaw and
vertical commands respect their configured maxima for every distance and
pixel offset (the forward axis `v_y` appears nowhere here — it is unbounded).
-/
theorem calcControlSpeed_bounds (distance xc yc fh fw : ℚ) :
    qabs (calcControlSpeed distance xc yc fh fw).1 ≤ centeringSpeed ∧
    qabs (calcControlSpeed distance xc yc fh fw).2.2.2 ≤ yawSpeed ∧
    qabs (calcControlSpeed distance xc yc fh fw).2.2.1 ≤ verticalSpeed := by
  have hcs : (0:ℚ) ≤ centeringSpeed := by norm_num [centeringSpeed]
  have hys : (0:ℚ) ≤ yawSpeed := by norm_num [yawSpeed]
  have hvs : (0:ℚ) ≤ verticalSpeed := by norm_num [verticalSpeed]
  refine ⟨?_, ?_, ?_⟩
  · rw [calcControlSpeed_vx_eq]
    by_cases hb : qabs (xc - fw/2) > fw/4
    · rw [if_pos hb]
      exact qabs_mul_qsign_le _ _ hcs
    · rw [if_neg hb]
      have hr := ratio_unit_interval (xc - fw/2) (fw/4) hb
      have hq0 : 0 ≤ qmax (centeringSpeed * (1/2))
          (centeringSpeed * (qabs (xc - fw/2) / (fw/4))) := by
        unfold qmax
        split
        · exact mul_nonneg hcs hr.1
        · linarith
      have hql : qmax (centeringSpeed * (1/2))
          (centeringSpeed * (qabs (xc - fw/2) / (fw/4))) ≤ centeringSpeed := by
        unfold qmax
        split
        · calc centeringSpeed * (qabs (xc - fw/2) / (fw/4)) ≤ centeringSpeed * 1 :=
              mul_le_mul_of_nonneg_left hr.2 hcs
            _ = centeringSpeed := mul_one _
        · linarith
      exact le_trans (qabs_mul_qsign_le _ _ hq0) hql
  · rw [calcControlSpeed_yaw_eq]
    by_cases hb : qabs (xc - fw/2) > fw/4
    · rw [if_pos hb]
      exact qabs_mul_qsign_le _ _ hys
    · rw [if_neg hb]
      have hr := ratio_unit_interval (xc - fw/2) (fw/4) hb
      have hyr : qabs (yawSpeed * (qabs (xc - fw/2) / (fw/4)) * qsign (xc - fw/2))
          ≤ yawSpeed := by
        refine le_trans (qabs_mul_qsign_le (yawSpeed * (qabs (xc - fw/2) / (fw/4)))
          (xc - fw/2) (mul_nonneg hys hr.1)) ?_
        calc yawSpeed * (qabs (xc - fw/2) / (fw/4)) ≤ yawSpeed * 1 :=
              mul_le_mul_of_nonneg_left hr.2 hys
          _ = yawSpeed := mul_one _
      split
      · calc qabs (yawSpeed * (qabs (xc - fw/2) / (fw/4)) * qsign (xc - fw/2) * (1/2))
            = qabs (yawSpeed * (qabs (xc - fw/2) / (fw/4)) * qsign (xc - fw/2)) *
              qabs (1/2) := qabs_mul _ _
          _ ≤ yawSpeed * qabs (1/2) :=
              mul_le_mul_of_nonneg_right hyr (qabs_nonneg _)
          _ ≤ yawSpeed := by
              rw [show qabs (1/2 : ℚ) = 1/2 by rw [qabs_eq_abs]; norm_num]
              linarith
      · exact hyr
  · rw [calcControlSpeed_vz_eq]
    split
    · rw [show -verticalSpeed * qsign (yc - fh/2) =
          verticalSpeed * -(qsign (yc - fh/2)) by ring, qabs_mul]
      calc qabs verticalSpeed * qabs (-qsign (yc - fh/2))
          ≤ qabs verticalSpeed * 1 := by
            refine mul_le_mul_of_nonneg_left ?_ (qabs_nonneg _)
            rw [qabs_eq_abs, abs_neg, ← qabs_eq_abs]
            exact qabs_qsign_le_one _
        _ = verticalSpeed := by rw [mul_one, qabs_eq_abs, abs_of_nonneg hvs]
    · rw [show qabs 0 = 0 from rfl]
      exact hvs

theorem afterSelect_bounds (s : FlyState) (cand : Cand) (fw fh now : ℚ) (c : VelCmd)
    (hc : c ∈ (afterSelect s cand fw fh now).2.cmds) :
    qabs c.vx ≤ centeringSpeed ∧ qabs c.yawRate ≤ yawSpeed ∧ qabs c.vz ≤ verticalSpeed := by
  unfold afterSelect at hc
  cases hd : cand.dist with
  | none =>
    rw [hd] at hc
    simp at hc
  | some d =>
    rw [hd] at hc
    dsimp only at hc
    split_ifs at hc
    · simp at hc
      subst hc
      refine ⟨?_, ?_, ?_⟩ <;> norm_num [qabs, zeroCmd, centeringSpeed, yawSpeed, verticalSpeed]
    · simp at hc
      subst hc
      exact ⟨qabs_clip_le _ _ (by norm_num [centeringSpeed]),
             qabs_clip_le _ _ (by norm_num [yawSpeed]),
             qabs_clip_le _ _ (by norm_num [verticalSpeed])⟩
    · simp at hc
    · simp at hc
      subst hc
      exact ⟨(calcControlSpeed_bounds d cand.centerX cand.centerY fh fw).1,
             (calcControlSpeed_bounds d cand.centerX cand.centerY fh fw).2.1,
             (calcControlSpeed_bounds d cand.centerX cand.centerY fh fw).2.2⟩
    · simp at hc
      subst hc
      exact ⟨(calcControlSpeed_bounds d cand.centerX cand.centerY fh fw).1,
             (calcControlSpeed_bounds d cand.centerX cand.centerY fh fw).2.1,
             (calcControlSpeed_bounds d cand.centerX cand.centerY fh fw).2.2⟩
    · simp at hc

theorem followBranch_bounds (s : FlyState) (cands : List Cand) (fw fh now : ℚ) (c : VelCmd)
    (hc : c ∈ (followBranch s cands fw fh now).2.cmds) :
    qabs c.vx ≤ centeringSpeed ∧ qabs c.yawRate ≤ yawSpeed ∧ qabs c.vz ≤ verticalSpeed := by
  unfold followBranch at hc
  cases hv : validFilter s.scannedMarkers cands with
  | nil =>
    rw [hv] at hc
    simp at hc
  | cons v0 vrest =>
    rw [hv] at hc
    dsimp only at hc
    cases hl : s.lockedMarkerId with
    | some m =>
      rw [hl] at hc
      dsimp only at hc
      cases hf : (v0 :: vrest).find? (fun cd => cd.id == m) with
      | some cd =>
        rw [hf] at hc
        exact afterSelect_bounds _ _ _ _ _ _ hc
      | none =>
        rw [hf] at hc
        dsimp only at hc
        split_ifs at hc
        · exact afterSelect_bounds _ _ _ _ _ _ hc
        · simp at hc
    | none =>
      rw [hl] at hc
      exact afterSelect_bounds _ _ _ _ _ _ hc

theorem yawSearchStep_bounds (s : FlyState) (now : ℚ) (c : VelCmd)
    (hc : c ∈ (yawSearchStep s now).2) :
    qabs c.vx ≤ centeringSpeed ∧ qabs c.yawRate ≤ yawSpeed ∧ qabs c.vz ≤ verticalSpeed := by
  unfold yawSearchStep at hc
  split_ifs at hc <;> simp at hc <;>
    (subst hc
     cases hdir : s.yawSearchDirPos <;>
       (refine ⟨?_, ?_, ?_⟩ <;>
         norm_num [qabs, yawDirQ, centeringSpeed, yawSpeed, verticalSpeed]))

theorem noMarkerBranch_bounds (s : FlyState) (now : ℚ) (c : VelCmd)
    (hc : c ∈ (noMarkerBranch s now).2.cmds) :
    qabs c.vx ≤ centeringSpeed ∧ qabs c.yawRate ≤ yawSpeed ∧ qabs c.vz ≤ verticalSpeed := by
  unfold noMarkerBranch at hc
  dsimp only at hc
  split_ifs at hc
  · simp at hc
    subst hc
    refine ⟨?_, ?_, ?_⟩ <;> norm_num [qabs, retreatCmd, centeringSpeed, yawSpeed, verticalSpeed]
  · simp at hc
    subst hc
    refine ⟨?_, ?_, ?_⟩ <;> norm_num [qabs, zeroCmd, centeringSpeed, yawSpeed, verticalSpeed]
  · simp only [List.mem_append, List.mem_singleton] at hc
    rcases hc with h | rfl
    · exact yawSearchStep_bounds _ _ _ h
    · refine ⟨?_, ?_, ?_⟩ <;> norm_num [qabs, retreatCmd, centeringSpeed, yawSpeed, verticalSpeed]
  · exact yawSearchStep_bounds _ _ _ hc

theorem qrBranch_bounds (s : FlyState) (qr : Option String) (now : ℚ)
    (db : String → Option DbItem) (c : VelCmd)
    (hc : c ∈ (qrBranch s qr now db).2.cmds) :
    qabs c.vx ≤ centeringSpeed ∧ qabs c.yawRate ≤ yawSpeed ∧ qabs c.vz ≤ verticalSpeed := by
  unfold qrBranch at hc
  cases qr with
  | some q =>
    dsimp only at hc
    split_ifs at hc <;> simp at hc <;>
      (subst hc
       refine ⟨?_, ?_, ?_⟩ <;>
         norm_num [qabs, retreatCmd, centeringSpeed, yawSpeed, verticalSpeed])
  | none =>
    dsimp only at hc
    by_cases hdelay : controlDelay ≤ now - s.lastControlTime
    · rw [if_pos hdelay] at hc
      by_cases hup : s.searchPhaseUp = true
      · rw [if_pos hup] at hc
        split_ifs at hc <;> simp at hc <;>
          (subst hc
           refine ⟨?_, ?_, ?_⟩ <;>
             norm_num [qabs, centeringSpeed, yawSpeed, verticalSpeed])
      · rw [if_neg hup] at hc
        cases hh : s.initialHeight with
        | none =>
          rw [hh] at hc
          dsimp only at hc
          simp at hc
        | some h0 =>
          rw [hh] at hc
          dsimp only at hc
          split_ifs at hc <;> simp at hc <;>
            (subst hc
             refine ⟨?_, ?_, ?_⟩ <;>
               norm_num [qabs, centeringSpeed, yawSpeed, verticalSpeed])
    · rw [if_neg hdelay] at hc
      simp at hc

/-- A Following state locked on marker 7, for the C3 instances. -/
def c3State : FlyState := { initFlyState 0 with lockedMarkerId := some 7 }

/-- A frame showing marker 7 dead centre at distance 5 m. -/
def c3Frame : FrameIn :=
  { detection := some [{ id := 7, side1 := 10, side2 := 10, side3 := 10, side4 := 10,
                         centerX := 320, centerY := 240, dist := some 5 }],
    qr := none, frameWidth := 640, frameHeight := 480, now := 100 }

/-- Claim C3 (counterexample): with the marker centred at distance 5 m the
loop emits `v_y = 73/150 ≈ 0.487`, well above `max_speed = 0.18`: the
forward/back axis is not clamped to its configured maximum. -/
theorem c3_counterexample :
    (flyFrameStep c3State c3Frame (fun _ => none)).2.cmds =
      [{ vx := 0, vy := 73/150, vz := 0, yawRate := 0 }] ∧
    ¬ qabs (73/150 : ℚ) ≤ maxSpeed := by
  constructor
  · with_unfolding_all decide
  · with_unfolding_all decide

/-- Claim C3 (amended): every velocity command emitted by any branch of the
control loop satisfies `|v_x| ≤ centering_speed`, `|yaw_rate| ≤ yaw_speed`
and `|v_z| ≤ vertical_speed`, for all marker distances and pixel offsets; the
forward/back axis `v_y` carries no such clamp (at large distance errors its
magnitude exceeds `max_speed`, as the counterexample shows). -/
theorem c3_velocity_bounds (s : FlyState) (f : FrameIn) (db : String → Option DbItem)
    (c : VelCmd) (hc : c ∈ (flyFrameStep s f db).2.cmds) :
    qabs c.vx ≤ centeringSpeed ∧ qabs c.yawRate ≤ yawSpeed ∧ qabs c.vz ≤ verticalSpeed := by
  unfold flyFrameStep at hc
  by_cases ht : s.targetReached = true
  · rw [if_pos ht] at hc
    exact qrBranch_bounds _ _ _ _ _ hc
  · rw [if_neg ht] at hc
    cases hdet : f.detection with
    | some cands =>
      rw [hdet] at hc
      dsimp only at hc
      by_cases hr : s.retreatMode = true
      · rw [if_pos hr] at hc
        exact noMarkerBranch_bounds _ _ _ hc
      · rw [if_neg hr] at hc
        exact followBranch_bounds _ _ _ _ _ _ hc
    | none =>
      rw [hdet] at hc
      exact noMarkerBranch_bounds _ _ _ hc

/-- Witness for `c3_velocity_bounds` on the concrete command of the C3
frame. -/
theorem c3_velocity_bounds_witness :
    qabs (VelCmd.mk 0 (73/150) 0 0).vx ≤ centeringSpeed ∧
    qabs (VelCmd.mk 0 (73/150) 0 0).yawRate ≤ yawSpeed ∧
    qabs (VelCmd.mk 0 (73/150) 0 0).vz ≤ verticalSpeed := by
  exact c3_velocity_bounds c3State c3Frame (fun _ => none)
    (VelCmd.mk 0 (73/150) 0 0) (by with_unfolding_all decide)

/-! ### Claim C6: marker-lock stability

The marker-selection logic lives in the Following branch (lines 574-741);
these traces range over the consecutive frames processed by that branch —
frames of other phases never touch `locked_marker_id` or
`marker_lost_frames`. -/

/-- One frame as consumed by the Following branch. -/
structure FollowFrame where
  cands : List Cand
  fw : ℚ
  fh : ℚ
  now : ℚ

/-- State update of one Following frame. -/
def followFrameStep (s : FlyState) (f : FollowFrame) : FlyState :=
  (followBranch s f.cands f.fw f.fh f.now).1

/-- Run a sequence of Following frames. -/
def followRun (s : FlyState) (fs : List FollowFrame) : FlyState :=
  fs.foldl followFrameStep s

/-- The ids of the valid candidates a state sees in a frame. -/
def validIds (s : FlyState) (f : FollowFrame) : List Nat :=
  (validFilter s.scannedMarkers f.cands).map Cand.id

theorem afterSelect_proj (s : FlyState) (c : Cand) (fw fh now : ℚ) :
    (afterSelect s c fw fh now).1.lockedMarkerId = s.lockedMarkerId ∧
    (afterSelect s c fw fh now).1.markerLostFrames = s.markerLostFrames ∧
    (afterSelect s c fw fh now).1.scannedMarkers = s.scannedMarkers ∧
    (afterSelect s c fw fh now).2.sel = some c.id := by
  unfold afterSelect
  cases c.dist <;> dsimp only
  · exact ⟨rfl, rfl, rfl, rfl⟩
  · split_ifs <;> exact ⟨rfl, rfl, rfl, rfl⟩

theorem nearestCandAux_mem (l : List Cand) : ∀ (best : Cand) (bd : Option ℚ),
    nearestCandAux best bd l ∈ best :: l := by
  induction l with
  | nil => intro best bd; exact List.mem_cons_self _ _
  | cons c rest ih =>
    intro best bd
    have key : ∀ (b2 : Cand) (bd2 : Option ℚ), b2 = best ∨ b2 = c →
        nearestCandAux b2 bd2 rest ∈ best :: c :: rest := by
      intro b2 bd2 hb2
      rcases List.mem_cons.mp (ih b2 bd2) with h | h
      · rw [h]
        rcases hb2 with rfl | rfl
        · exact List.mem_cons_self _ _
        · exact List.mem_cons_of_mem _ (List.mem_cons_self _ _)
      · exact List.mem_cons_of_mem _ (List.mem_cons_of_mem _ h)
    unfold nearestCandAux
    cases c.dist with
    | none => exact key best bd (Or.inl rfl)
    | some d =>
      cases bd with
      | none => exact key c (some d) (Or.inr rfl)
      | some b =>
        dsimp only
        split
        · exact key c (some d) (Or.inr rfl)
        · exact key best (some b) (Or.inl rfl)

theorem nearestCand_mem (v0 : Cand) (vrest : List Cand) :
    nearestCand v0 vrest ∈ v0 :: vrest := by
  unfold nearestCand
  rcases List.mem_cons.mp (nearestCandAux_mem (v0 :: vrest) v0 none) with h | h
  · rw [h]
    exact List.mem_cons_self _ _
  · exact h

/-- A candidate list without id `m` has a `find?` miss for `m`. -/
theorem find_id_none (l : List Cand) (m : Nat) (hm : m ∉ l.map Cand.id) :
    l.find? (fun c => c.id == m) = none := by
  rw [List.find?_eq_none]
  intro c hcmem hbeq
  exact hm (List.mem_map.mpr ⟨c, hcmem, eq_of_beq hbeq⟩)

/-- A `find?` hit for id `m` returns a candidate with that id. -/
theorem find_id_some (l : List Cand) (m : Nat) (c : Cand)
    (h : l.find? (fun cd => cd.id == m) = some c) : c.id = m := by
  have hp := List.find?_some h
  simp only at hp
  exact eq_of_beq hp

/-- Step characterization: the locked marker is visible among the valid
candidates. -/
theorem followBranch_locked_seen (s : FlyState) (cands : List Cand) (fw fh now : ℚ)
    (m : Nat) (hlock : s.lockedMarkerId = some m)
    (hm : m ∈ (validFilter s.scannedMarkers cands).map Cand.id) :
    (followBranch s cands fw fh now).1.lockedMarkerId = some m ∧
    (followBranch s cands fw fh now).1.markerLostFrames = 0 ∧
    (followBranch s cands fw fh now).2.sel = some m := by
  unfold followBranch
  cases hv : validFilter s.scannedMarkers cands with
  | nil =>
    rw [hv] at hm
    simp at hm
  | cons v0 vrest =>
    rw [hv] at hm
    cases hf : (v0 :: vrest).find? (fun c => c.id == m) with
    | none =>
      rcases List.mem_map.mp hm with ⟨c, hcmem, hcid⟩
      have := List.find?_eq_none.mp hf c hcmem
      simp [hcid] at this
    | some cd =>
      simp only [hv, hlock, hf]
      have hproj := afterSelect_proj
        { s with lockedMarkerId := some m, markerLostFrames := 0 } cd fw fh now
      refine ⟨?_, ?_, ?_⟩
      · rw [hproj.1]
      · rw [hproj.2.1]
      · rw [hproj.2.2.2, find_id_some _ _ _ hf]

/-- Step characterization: locked marker invisible, below the lost bound —
the frame is skipped with no command. -/
theorem followBranch_locked_skip (s : FlyState) (cands : List Cand) (fw fh now : ℚ)
    (m : Nat) (hlock : s.lockedMarkerId = some m)
    (hne : validFilter s.scannedMarkers cands ≠ [])
    (hm : m ∉ (validFilter s.scannedMarkers cands).map Cand.id)
    (hlost : s.markerLostFrames + 1 < maxLostFrames) :
    followBranch s cands fw fh now =
      ({ s with markerLostFrames := s.markerLostFrames + 1,
                framesWithoutMarker := s.framesWithoutMarker + 1 },
       { cmds := [], sel := none, effs := [] }) := by
  unfold followBranch
  cases hv : validFilter s.scannedMarkers cands with
  | nil => exact absurd hv hne
  | cons v0 vrest =>
    rw [hv] at hm
    simp only [hv, hlock, find_id_none _ _ hm]
    rw [if_neg (by omega)]

/-- Step characterization: locked marker invisible at the lost bound — the
lock moves to the nearest valid candidate (the lost counter is not reset). -/
theorem followBranch_locked_clear (s : FlyState) (cands : List Cand) (fw fh now : ℚ)
    (m : Nat) (v0 : Cand) (vrest : List Cand) (hlock : s.lockedMarkerId = some m)
    (hv : validFilter s.scannedMarkers cands = v0 :: vrest)
    (hm : m ∉ (validFilter s.scannedMarkers cands).map Cand.id)
    (hlost : maxLostFrames ≤ s.markerLostFrames + 1) :
    (followBranch s cands fw fh now).1.lockedMarkerId = some (nearestCand v0 vrest).id ∧
    (followBranch s cands fw fh now).1.markerLostFrames = s.markerLostFrames + 1 ∧
    (nearestCand v0 vrest).id ≠ m := by
  have hnm : (nearestCand v0 vrest).id ≠ m := by
    intro he
    rw [hv] at hm
    exact hm (List.mem_map.mpr ⟨nearestCand v0 vrest, nearestCand_mem v0 vrest, he⟩)
  unfold followBranch
  rw [hv] at hm
  simp only [hv, hlock, find_id_none _ _ hm]
  rw [if_pos hlost]
  have hproj := afterSelect_proj
    { s with markerLostFrames := s.markerLostFrames + 1,
             lockedMarkerId := some (nearestCand v0 vrest).id }
    (nearestCand v0 vrest) fw fh now
  exact ⟨by rw [hproj.1], by rw [hproj.2.1], hnm⟩

/-- The Following branch never touches `scanned_markers`. -/
theorem followBranch_scanned (s : FlyState) (cands : List Cand) (fw fh now : ℚ) :
    (followBranch s cands fw fh now).1.scannedMarkers = s.scannedMarkers := by
  unfold followBranch
  cases hv : validFilter s.scannedMarkers cands with
  | nil => rfl
  | cons v0 vrest =>
    dsimp only
    cases s.lockedMarkerId with
    | some m =>
      dsimp only
      cases hf : (v0 :: vrest).find? (fun c => c.id == m) with
      | some cd =>
        dsimp only
        exact (afterSelect_proj _ _ _ _ _).2.2.1
      | none =>
        dsimp only
        split_ifs
        · exact (afterSelect_proj _ _ _ _ _).2.2.1
        · rfl
    | none =>
      dsimp only
      exact (afterSelect_proj _ _ _ _ _).2.2.1

theorem followRun_scanned (fs : List FollowFrame) : ∀ (s : FlyState),
    (followRun s fs).scannedMarkers = s.scannedMarkers := by
  induction fs with
  | nil => intro s; rfl
  | cons f rest ih =>
    intro s
    unfold followRun
    rw [List.foldl_cons]
    have h1 : (followRun (followFrameStep s f) rest).scannedMarkers =
        (followFrameStep s f).scannedMarkers := ih (followFrameStep s f)
    unfold followRun at h1
    rw [h1]
    exact followBranch_scanned s f.cands f.fw f.fh f.now

theorem followRun_take_succ (fs : List FollowFrame) (s : FlyState) (n : Nat)
    (h : n < fs.length) :
    followRun s (fs.take (n + 1)) =
      followFrameStep (followRun s (fs.take n)) (fs.get ⟨n, h⟩) := by
  rw [List.take_succ, List.getElem?_eq_getElem h]
  unfold followRun
  rw [Option.toList_some, List.foldl_append, List.foldl_cons, List.foldl_nil,
    List.get_eq_getElem]

/-- Lock invariant along a Following trace: while the lock stays on `m` from
a zeroed lost counter, the counter never exceeds the frame count, and the
locked marker was absent from the valid candidates of the last
`markerLostFrames` frames. -/
theorem followRun_lost_window (fs : List FollowFrame) (s0 : FlyState) (m : Nat)
    (h0 : s0.markerLostFrames = 0) :
    ∀ n, n ≤ fs.length →
    (∀ k, k ≤ n → (followRun s0 (fs.take k)).lockedMarkerId = some m) →
    (followRun s0 (fs.take n)).markerLostFrames ≤ n ∧
    (∀ j (hj : j < fs.length),
      n - (followRun s0 (fs.take n)).markerLostFrames ≤ j → j < n →
      m ∉ (validFilter s0.scannedMarkers (fs.get ⟨j, hj⟩).cands).map Cand.id) := by
  intro n
  induction n with
  | zero =>
    intro _ _
    refine ⟨?_, ?_⟩
    · rw [List.take_zero]
      show s0.markerLostFrames ≤ 0
      rw [h0]
    · intro j hj h1 h2
      exact absurd h2 (Nat.not_lt_zero j)
  | succ n ih =>
    intro hn hlock
    have hnlt : n < fs.length := hn
    have hlock2 : ∀ k, k ≤ n → (followRun s0 (fs.take k)).lockedMarkerId = some m :=
      fun k hk => hlock k (Nat.le_succ_of_le hk)
    have IH := ih (Nat.le_of_succ_le hn) hlock2
    have hstep := followRun_take_succ fs s0 n hnlt
    have hsnlock : (followRun s0 (fs.take n)).lockedMarkerId = some m := hlock2 n le_rfl
    have hsn1 : (followRun s0 (fs.take (n+1))).lockedMarkerId = some m := hlock (n+1) le_rfl
    have hscan : (followRun s0 (fs.take n)).scannedMarkers = s0.scannedMarkers :=
      followRun_scanned (fs.take n) s0
    by_cases hv : validFilter s0.scannedMarkers (fs.get ⟨n, hnlt⟩).cands = []
    · have hv2 : validFilter (followRun s0 (fs.take n)).scannedMarkers
          (fs.get ⟨n, hnlt⟩).cands = [] := by rw [hscan]; exact hv
      have hstate : followRun s0 (fs.take (n+1)) =
          { followRun s0 (fs.take n) with
            framesWithoutMarker := (followRun s0 (fs.take n)).framesWithoutMarker + 1 } := by
        rw [hstep]
        unfold followFrameStep
        rw [followBranch_no_valid _ _ _ _ _ hv2]
      have hlost : (followRun s0 (fs.take (n+1))).markerLostFrames =
          (followRun s0 (fs.take n)).markerLostFrames := by rw [hstate]
      refine ⟨?_, ?_⟩
      · rw [hlost]
        exact Nat.le_succ_of_le IH.1
      · intro j hj h1 h2
        rw [hlost] at h1
        rcases Nat.lt_succ_iff_lt_or_eq.mp h2 with hlt | heq
        · exact IH.2 j hj (by omega) hlt
        · subst heq
          have he : validFilter s0.scannedMarkers (fs.get ⟨j, hj⟩).cands = [] := hv
          rw [he]
          simp
    · by_cases hm : m ∈ (validFilter s0.scannedMarkers (fs.get ⟨n, hnlt⟩).cands).map Cand.id
      · have hm2 : m ∈ (validFilter (followRun s0 (fs.take n)).scannedMarkers
            (fs.get ⟨n, hnlt⟩).cands).map Cand.id := by rw [hscan]; exact hm
        have hseen := followBranch_locked_seen (followRun s0 (fs.take n))
          (fs.get ⟨n, hnlt⟩).cands (fs.get ⟨n, hnlt⟩).fw (fs.get ⟨n, hnlt⟩).fh
          (fs.get ⟨n, hnlt⟩).now m hsnlock hm2
        have hlost : (followRun s0 (fs.take (n+1))).markerLostFrames = 0 := by
          rw [hstep]
          exact hseen.2.1
        refine ⟨?_, ?_⟩
        · rw [hlost]
          omega
        · intro j hj h1 h2
          rw [hlost] at h1
          omega
      · have hm2 : m ∉ (validFilter (followRun s0 (fs.take n)).scannedMarkers
            (fs.get ⟨n, hnlt⟩).cands).map Cand.id := by rw [hscan]; exact hm
        have hne2 : validFilter (followRun s0 (fs.take n)).scannedMarkers
            (fs.get ⟨n, hnlt⟩).cands ≠ [] := by rw [hscan]; exact hv
        by_cases hb : (followRun s0 (fs.take n)).markerLostFrames + 1 < maxLostFrames
        · have hskip := followBranch_locked_skip (followRun s0 (fs.take n))
            (fs.get ⟨n, hnlt⟩).cands (fs.get ⟨n, hnlt⟩).fw (fs.get ⟨n, hnlt⟩).fh
            (fs.get ⟨n, hnlt⟩).now m hsnlock hne2 hm2 hb
          have hlost : (followRun s0 (fs.take (n+1))).markerLostFrames =
              (followRun s0 (fs.take n)).markerLostFrames + 1 := by
            rw [hstep]
            unfold followFrameStep
            rw [hskip]
          refine ⟨?_, ?_⟩
          · rw [hlost]
            omega
          · intro j hj h1 h2
            rw [hlost] at h1
            rcases Nat.lt_succ_iff_lt_or_eq.mp h2 with hlt | heq
            · exact IH.2 j hj (by omega) hlt
            · subst heq
              exact hm
        · obtain ⟨v0, vrest, hv2⟩ : ∃ v0 vrest,
              validFilter (followRun s0 (fs.take n)).scannedMarkers
                (fs.get ⟨n, hnlt⟩).cands = v0 :: vrest := by
            cases hvv : validFilter (followRun s0 (fs.take n)).scannedMarkers
                (fs.get ⟨n, hnlt⟩).cands with
            | nil => exact absurd hvv hne2
            | cons a b => exact ⟨a, b, rfl⟩
          have hclear := followBranch_locked_clear (followRun s0 (fs.take n))
            (fs.get ⟨n, hnlt⟩).cands (fs.get ⟨n, hnlt⟩).fw (fs.get ⟨n, hnlt⟩).fh
            (fs.get ⟨n, hnlt⟩).now m v0 vrest hsnlock hv2 hm2 (by omega)
          have hlock1 : (followRun s0 (fs.take (n+1))).lockedMarkerId =
              some (nearestCand v0 vrest).id := by
            rw [hstep]
            unfold followFrameStep
            exact hclear.1
          rw [hlock1] at hsn1
          exact absurd (Option.some.inj hsn1) hclear.2.2

/-- A Following state locked on marker 1 whose lost counter already sits at
14 — the history an unbroken lock produces after fourteen skipped frames. -/
def c6RelockState : FlyState :=
  { initFlyState 0 with lockedMarkerId := some 1, markerLostFrames := 14 }

/-- A frame showing only (valid) marker 2. -/
def c6FrameA : FollowFrame :=
  { cands := [{ id := 2, side1 := 10, side2 := 10, side3 := 10, side4 := 10,
                centerX := 320, centerY := 240, dist := some 1 }],
    fw := 640, fh := 480, now := 1 }

/-- A frame showing only (valid) marker 3. -/
def c6FrameB : FollowFrame :=
  { cands := [{ id := 3, side1 := 10, side2 := 10, side3 := 10, side4 := 10,
                centerX := 320, centerY := 240, dist := some 1 }],
    fw := 640, fh := 480, now := 2 }

/-- Claim C6 (counterexample): when marker 1 is dropped, the lost-frame
counter is not reset for the marker locked in its place: marker 2 is seen
and locked on frame A with the counter already at 15, and is cleared on
frame B — after marker 2 was unseen for only a single frame, not the
max-lost-frames 15 the claim requires. -/
theorem c6_counterexample :
    (followRun c6RelockState [c6FrameA]).lockedMarkerId = some 2 ∧
    (followRun c6RelockState [c6FrameA]).markerLostFrames = 15 ∧
    2 ∈ (validFilter c6RelockState.scannedMarkers c6FrameA.cands).map Cand.id ∧
    2 ∉ (validFilter c6RelockState.scannedMarkers c6FrameB.cands).map Cand.id ∧
    (followRun c6RelockState [c6FrameA, c6FrameB]).lockedMarkerId ≠ some 2 := by
  with_unfolding_all decide

/-- Claim C6 (amended): in the Following branch, a locked marker id is
selected whenever it is among the valid candidates, resetting the lost-frame
counter; on a skipped frame (locked marker invisible, counter below the
bound) no command is issued and the lock survives with the counter
incremented; and along any trace that keeps the lock on `m` from a zeroed
lost counter, the lock can first leave `m` only on frame `i ≥ 14` with `m`
absent from the valid candidates of all 15 consecutive frames
`i-14, …, i`.  (When the counter was not zeroed at lock time — the code
never resets it on a relock after a clear — this guarantee fails, as the
counterexample shows.) -/
theorem c6_marker_lock (m : Nat) :
    (∀ (s : FlyState) (f : FollowFrame),
      s.lockedMarkerId = some m → m ∈ validIds s f →
      (followBranch s f.cands f.fw f.fh f.now).2.sel = some m ∧
      (followFrameStep s f).lockedMarkerId = some m ∧
      (followFrameStep s f).markerLostFrames = 0) ∧
    (∀ (s : FlyState) (f : FollowFrame),
      s.lockedMarkerId = some m → validFilter s.scannedMarkers f.cands ≠ [] →
      m ∉ validIds s f → s.markerLostFrames + 1 < maxLostFrames →
      (followBranch s f.cands f.fw f.fh f.now).2.cmds = [] ∧
      (followFrameStep s f).lockedMarkerId = some m ∧
      (followFrameStep s f).markerLostFrames = s.markerLostFrames + 1) ∧
    (∀ (s0 : FlyState) (fs : List FollowFrame) (i : Nat) (hi : i < fs.length),
      s0.lockedMarkerId = some m → s0.markerLostFrames = 0 →
      (∀ k, k ≤ i → (followRun s0 (fs.take k)).lockedMarkerId = some m) →
      (followRun s0 (fs.take (i+1))).lockedMarkerId ≠ some m →
      14 ≤ i ∧ ∀ j (hj : j < fs.length), i - 14 ≤ j → j ≤ i →
        m ∉ (validFilter s0.scannedMarkers (fs.get ⟨j, hj⟩).cands).map Cand.id) := by
  refine ⟨?_, ?_, ?_⟩
  · intro s f hlock hm
    have h := followBranch_locked_seen s f.cands f.fw f.fh f.now m hlock hm
    exact ⟨h.2.2, h.1, h.2.1⟩
  · intro s f hlock hne hm hb
    have h := followBranch_locked_skip s f.cands f.fw f.fh f.now m hlock hne hm hb
    unfold followFrameStep
    rw [h]
    exact ⟨rfl, hlock, rfl⟩
  · intro s0 fs i hi hlock0 h0 hkeep hgone
    have hscan : (followRun s0 (fs.take i)).scannedMarkers = s0.scannedMarkers :=
      followRun_scanned (fs.take i) s0
    have hstep := followRun_take_succ fs s0 i hi
    have hsnlock : (followRun s0 (fs.take i)).lockedMarkerId = some m := hkeep i le_rfl
    have IH := followRun_lost_window fs s0 m h0 i (le_of_lt hi) hkeep
    have hv : validFilter s0.scannedMarkers (fs.get ⟨i, hi⟩).cands ≠ [] := by
      intro hv
      apply hgone
      have hv2 : validFilter (followRun s0 (fs.take i)).scannedMarkers
          (fs.get ⟨i, hi⟩).cands = [] := by rw [hscan]; exact hv
      rw [hstep]
      unfold followFrameStep
      rw [followBranch_no_valid _ _ _ _ _ hv2]
      exact hsnlock
    have hm : m ∉ (validFilter s0.scannedMarkers (fs.get ⟨i, hi⟩).cands).map Cand.id := by
      intro hm
      apply hgone
      have hm2 : m ∈ (validFilter (followRun s0 (fs.take i)).scannedMarkers
          (fs.get ⟨i, hi⟩).cands).map Cand.id := by rw [hscan]; exact hm
      rw [hstep]
      exact (followBranch_locked_seen (followRun s0 (fs.take i)) (fs.get ⟨i, hi⟩).cands
        (fs.get ⟨i, hi⟩).fw (fs.get ⟨i, hi⟩).fh (fs.get ⟨i, hi⟩).now m hsnlock hm2).1
    have hm2 : m ∉ (validFilter (followRun s0 (fs.take i)).scannedMarkers
        (fs.get ⟨i, hi⟩).cands).map Cand.id := by rw [hscan]; exact hm
    have hne2 : validFilter (followRun s0 (fs.take i)).scannedMarkers
        (fs.get ⟨i, hi⟩).cands ≠ [] := by rw [hscan]; exact hv
    have hb : ¬ (followRun s0 (fs.take i)).markerLostFrames + 1 < maxLostFrames := by
      intro hb
      apply hgone
      have hskip := followBranch_locked_skip (followRun s0 (fs.take i))
        (fs.get ⟨i, hi⟩).cands (fs.get ⟨i, hi⟩).fw (fs.get ⟨i, hi⟩).fh
        (fs.get ⟨i, hi⟩).now m hsnlock hne2 hm2 hb
      rw [hstep]
      unfold followFrameStep
      rw [hskip]
      exact hsnlock
    have hge : 14 ≤ (followRun s0 (fs.take i)).markerLostFrames := by
      unfold maxLostFrames at hb
      omega
    have h14 : 14 ≤ i := le_trans hge IH.1
    refine ⟨h14, ?_⟩
    intro j hj h1 h2
    rcases Nat.lt_or_ge j i with hlt | hgej
    · refine IH.2 j hj ?_ hlt
      have := IH.1
      omega
    · have : j = i := le_antisymm h2 hgej
      subst this
      exact hm

/-- A fresh Following state locked on marker 1 (zero lost frames). -/
def c6SeenState : FlyState := { initFlyState 0 with lockedMarkerId := some 1 }

/-- A frame where the locked marker 1 is valid and visible. -/
def c6Frame1 : FollowFrame :=
  { cands := [{ id := 1, side1 := 10, side2 := 10, side3 := 10, side4 := 10,
                centerX := 320, centerY := 240, dist := some 1 }],
    fw := 640, fh := 480, now := 1 }

/-- Fifteen consecutive frames in which marker 1 is never among the valid
candidates (only marker 2 is). -/
def c6RunFrames : List FollowFrame := List.replicate 15 c6FrameA

/-- Witness for `c6_marker_lock` on marker 1: visible-lock selection, a
skipped frame, and the 15-frame clearing trace. -/
theorem c6_marker_lock_witness :
    (followBranch c6SeenState c6Frame1.cands c6Frame1.fw c6Frame1.fh c6Frame1.now).2.sel =
      some 1 ∧
    (followFrameStep c6SeenState c6FrameA).markerLostFrames =
      c6SeenState.markerLostFrames + 1 ∧
    (14 ≤ 14 ∧ ∀ j (hj : j < c6RunFrames.length), 14 - 14 ≤ j → j ≤ 14 →
      1 ∉ (validFilter c6SeenState.scannedMarkers
        (c6RunFrames.get ⟨j, hj⟩).cands).map Cand.id) := by
  refine ⟨?_, ?_, ?_⟩
  · exact ((c6_marker_lock 1).1 c6SeenState c6Frame1 rfl (by with_unfolding_all decide)).1
  · exact ((c6_marker_lock 1).2.1 c6SeenState c6FrameA rfl (by with_unfolding_all decide)
      (by with_unfolding_all decide) (by decide)).2.2
  · exact (c6_marker_lock 1).2.2 c6SeenState c6RunFrames 14 (by decide) rfl rfl
      (by with_unfolding_all decide) (by with_unfolding_all decide)
